import Mathlib

/-!
Verification of the "Lost" tree-walking interpreter (Rust) against its
natural-language specification.

Shallow embedding conventions:
* Rust `f32` run-time numbers are modelled exactly by `F32`, an
  unnormalized fraction of machine-unbounded integers with value-based
  (cross-multiplied) equality and order: every numeric literal exercised by
  the theorems is a small integer, where `f32` arithmetic, comparison and
  display agree with exact fractions.
* `Rc<RefCell<Environment>>` sharing is modelled with an explicit store of
  environments addressed by index (`InterpState.store`); an environment value
  holds the index of its enclosing environment.
* Rust panics (`todo!()`, out-of-bounds indexing, `unwrap()` of an `Err`)
  are modelled by the dedicated outcome `Res.panic`.
* All loops and recursion are driven by an explicit fuel parameter; running
  out of fuel is the distinct outcome `Res.oof` (a model artifact; concrete
  theorems use ample fuel and never hit it).

Sources: src/src/lexer/lexer.rs, src/src/lexer/token.rs, src/src/error.rs,
src/src/parser/{expr.rs, stmt.rs, parser.rs},
src/src/interpreter/{interpreter.rs, types.rs, environment.rs}.
-/

namespace Lost

/-- Abbreviation used in signatures inside the `Ty` namespace, where the
bare name `String` would refer to the constructor `Ty.String`. -/
abbrev Str : Type := String

/-- Exact-fraction stand-in for Rust `f32` (`ℚ` itself is unusable here:
its arithmetic does not reduce definitionally).  A value is `num / den`
with `den ≠ 0` at every construction site; all observations the program
makes (equality, order, zero test, display) are value-based, so the lack
of normalization is unobservable. -/
structure F32 where
  num : Int
  den : Int
deriving DecidableEq, Repr

instance (n : Nat) : OfNat F32 n := ⟨⟨(n : Int), 1⟩⟩

/-- f32 value equality (`==`): cross-multiplied fraction equality. -/
def F32.beq (a b : F32) : Bool := decide (a.num * b.den = b.num * a.den)

/-- f32 `<` (valid for any sign of the denominators). -/
def F32.ltb (a b : F32) : Bool :=
  decide ((a.num * b.den - b.num * a.den) * (a.den * b.den) < 0)

/-- f32 `<=`. -/
def F32.leb (a b : F32) : Bool :=
  decide ((a.num * b.den - b.num * a.den) * (a.den * b.den) ≤ 0)

def F32.add (a b : F32) : F32 := ⟨a.num * b.den + b.num * a.den, a.den * b.den⟩

def F32.sub (a b : F32) : F32 := ⟨a.num * b.den - b.num * a.den, a.den * b.den⟩

def F32.mul (a b : F32) : F32 := ⟨a.num * b.num, a.den * b.den⟩

def F32.div (a b : F32) : F32 := ⟨a.num * b.den, a.den * b.num⟩

def F32.neg (a : F32) : F32 := ⟨-a.num, a.den⟩

/-- f32 `== 0.0`. -/
def F32.isZero (a : F32) : Bool := decide (a.num = 0)

/-- Display: model of f32 `Display` for the values the theorems exercise —
an integral value prints as a plain integer, exactly as `f32` does. -/
def F32.display (a : F32) : String :=
  if a.den = 1 then toString a.num
  else if a.den ≠ 0 ∧ a.num % a.den = 0 then toString (a.num / a.den)
  else toString a.num ++ "/" ++ toString a.den

/-- From src/src/lexer/token.rs: `enum TokenType`. -/
inductive TokenType where
  | LeftParen | RightParen | LeftBrace | RightBrace | Comma | Dot | SemiColon
  | Minus | Plus | Slash | Star
  | Bang | BangEqual | Equal | EqualEqual
  | Greater | GreaterEqual | Less | LessEqual
  | Identifier | String | Number
  | And | Class | Else | False | Fun | For | If | Nil | Or
  | Print | Return | Super | This | True | Var | While
  | EOF
deriving DecidableEq, Repr

/-- From token.rs: `enum LiteralType` (`f32` modelled as `F32`). -/
inductive LiteralType where
  | StringType (s : String)
  | NumberType (n : F32)
deriving DecidableEq, Repr

/-- From token.rs: `struct Token`. -/
structure Token where
  token_type : TokenType
  lexeme : String
  literal : Option LiteralType
  line : Nat
deriving DecidableEq, Repr

/-- From src/src/error.rs: `enum Error`. -/
inductive Error where
  | LexError (message : String) (line : Nat)
  | ParseError (message : String) (line : Nat)
  | InterpretError (message : String) (line : Nat)
deriving DecidableEq, Repr

/-- Outcome of running embedded Rust code: ordinary `Result` values are
`ok`/`err`; `panic` models a Rust panic; `oof` is fuel exhaustion
(model artifact only). -/
inductive Res (α : Type) where
  | ok (v : α)
  | err (e : Error)
  | panic
  | oof
deriving DecidableEq, Repr

/-- From src/src/parser/expr.rs: `enum Expr` (the feature-complete AST). -/
inductive Expr where
  | Binary (l : Expr) (op : Token) (r : Expr)
  | Call (callee : Expr) (closingParen : Token) (args : List Expr)
  | Get (obj : Expr) (name : Token)
  | Set (obj : Expr) (name : Token) (value : Expr)
  | Grouping (e : Expr)
  | Unary (op : Token) (e : Expr)
  | Literal (t : Token)
  | Logical (l : Expr) (op : Token) (r : Expr)
  | Variable (name : Token)
  | Assign (name : Token) (value : Expr)
deriving Repr

/-- From src/src/parser/stmt.rs: `enum Stmt`, extended with the two variants
the feature-complete parser and interpreter use but whose declaration is not
under src/.  `ret` and `classDecl` are modelled from the spec (§3):
"Return(keyword Token, value expr), Class(name Token, optional superclass
expr, ordered method Function-statements)", matching the constructor
`Stmt::ret` used by parser.rs and the visitor signatures `visit_return` /
`visit_class` in interpreter.rs. -/
inductive Stmt where
  | Block (stmts : List Stmt)
  | Expression (e : Expr)
  | Function (name : Token) (parameters : List Token) (body : List Stmt)
  | IfElse (cond : Expr) (thenBranch : Stmt) (elseBranch : Option Stmt)
  | Print (e : Expr)
  | Var (name : Token) (init : Option Expr)
  | WhileLoop (cond : Expr) (body : Stmt)
  | ret (keyword : Token) (value : Expr)
  | classDecl (name : Token) (superclass : Option Expr) (methods : List Stmt)
deriving Repr

/-- The single native operation of the program (`clock` in interpreter.rs). -/
inductive NativeOp where
  | clock
deriving DecidableEq, Repr

/-- From src/src/interpreter/types.rs: `struct NativeFunction`
(`to_call: fn()` is represented by the `NativeOp` tag; the only native
function the program constructs is `clock`). -/
structure NativeFn where
  name : String
  arity : Nat
  to_call : NativeOp
deriving DecidableEq, Repr

mutual
/-- From types.rs: `enum Type` — the runtime value union.  Rust `f32`
numbers are `F32`; `Rc<RefCell<Environment>>` closures are store indices. -/
inductive Ty where
  | String (s : String)
  | Number (n : F32)
  | Boolean (b : Bool)
  | Function (f : Func)
  | NativeFunction (f : NativeFn)
  | Class (c : ClassV)
  | Instance (i : InstanceV)
  | Nil

/-- From types.rs: `struct Function` (declaration is the `Stmt::Function`,
closure is the store index of the captured environment). -/
inductive Func where
  | mk (name : Token) (arity : Nat) (declaration : Stmt) (closure : Nat)

/-- From types.rs: `struct Class` (superclass is held by value: `Box<Class>`;
methods is the `HashMap<String, Function>` as an association list). -/
inductive ClassV where
  | mk (name : String) (arity : Nat) (superclass : Option ClassV)
      (methods : List (String × Func))

/-- From types.rs: `struct Instance` (fields held by value — `Instance` is
`Box`ed inside `Type`, not shared). -/
inductive InstanceV where
  | mk (cls : ClassV) (fields : List (String × Ty))
end

def Func.name : Func → Token
  | .mk n _ _ _ => n

def Func.arity : Func → Nat
  | .mk _ a _ _ => a

def Func.declaration : Func → Stmt
  | .mk _ _ d _ => d

def Func.closure : Func → Nat
  | .mk _ _ _ c => c

def ClassV.name : ClassV → String
  | .mk n _ _ _ => n

def ClassV.superclass : ClassV → Option ClassV
  | .mk _ _ s _ => s

def ClassV.methods : ClassV → List (String × Func)
  | .mk _ _ _ m => m

def InstanceV.cls : InstanceV → ClassV
  | .mk c _ => c

def InstanceV.fields : InstanceV → List (String × Ty)
  | .mk _ f => f

/-- From types.rs: `impl Type { fn value(&self) -> String }`
(Function/NativeFunction/Class/Instance use their `ToString`, which is the
name; `Token`'s `Display` is the lexeme). -/
def Ty.value : Ty → Str
  | .String s => s
  | .Number n => F32.display n
  | .Boolean b => if b then "true" else "false"
  | .Function f => f.name.lexeme
  | .NativeFunction f => f.name
  | .Class c => c.name
  | .Instance i => i.cls.name
  | .Nil => "nil"

/-- From types.rs: `impl fmt::Display for Type`. -/
def Ty.display : Ty → Str
  | .String s => s
  | .Number n => F32.display n
  | .Boolean b => if b then "true" else "false"
  | .Function f => "Function <" ++ f.name.lexeme ++ ">"
  | .NativeFunction f => "Native Function <" ++ f.name ++ ">"
  | .Class c => "Class <" ++ c.name ++ ">"
  | .Instance i => "Instance of <" ++ i.cls.name ++ ">"
  | .Nil => "nil"

/-- interpreter.rs `Interpreter::is_equal` (lines 85-108).  The
`Function`/`NativeFunction`/`Class`/`Instance` arms are `todo!()` in the
source; they are modelled as `none` (reaching them is a panic). -/
def is_equal : Ty → Ty → Option Bool
  | .Nil, right_expr =>
      some (match right_expr with | .Nil => true | _ => false)
  | .Boolean left_val, right_expr =>
      some (match right_expr with | .Boolean right_val => left_val == right_val | _ => false)
  | .Number left_val, right_expr =>
      some (match right_expr with | .Number right_val => F32.beq left_val right_val | _ => false)
  | .String left_val, right_expr =>
      some (match right_expr with | .String right_val => left_val == right_val | _ => false)
  | .Function _, _ => none
  | .NativeFunction _, _ => none
  | .Class _, _ => none
  | .Instance _, _ => none

/-- interpreter.rs `Interpreter::is_truthly` (lines 113-124); the four
non-primitive arms are `todo!()` in the source, modelled as `none`. -/
def is_truthly : Ty → Option Bool
  | .String _ => some true
  | .Number val => some (!(F32.isZero val))
  | .Boolean val => some val
  | .Function _ => none
  | .NativeFunction _ => none
  | .Class _ => none
  | .Instance _ => none
  | .Nil => some false

/-- interpreter.rs `get_number_or_return_error` (lines 72-80). -/
def get_number_or_return_error (value : Ty) (line : Nat) : Except Error F32 :=
  match value with
  | .Number val => .ok val
  | v => .error (.InterpretError ("Expected Number, got " ++ v.display) line)

/-- The operator dispatch of interpreter.rs `visit_binary` (lines 166-248),
applied after both operands have been evaluated to values. -/
def binaryOp (operator : Token) (left_value right_value : Ty) : Res Ty :=
  let line := operator.line
  match operator.token_type with
  | .Minus =>
    match get_number_or_return_error left_value line with
    | .error e => .err e
    | .ok left =>
      match get_number_or_return_error right_value line with
      | .error e => .err e
      | .ok right => .ok (.Number (F32.sub left right))
  | .Slash =>
    match get_number_or_return_error right_value line with
    | .error e => .err e
    | .ok right =>
      if F32.isZero right then .err (.InterpretError "Division by Zero" line)
      else
        match get_number_or_return_error left_value line with
        | .error e => .err e
        | .ok left => .ok (.Number (F32.div left right))
  | .Star =>
    match get_number_or_return_error left_value line with
    | .error e => .err e
    | .ok left =>
      match get_number_or_return_error right_value line with
      | .error e => .err e
      | .ok right => .ok (.Number (F32.mul left right))
  | .Plus =>
    match get_number_or_return_error left_value line with
    | .ok left_number =>
      -- Left is a number, so right has to be a number for '+' to be valid
      match get_number_or_return_error right_value line with
      | .error e => .err e
      | .ok right_number => .ok (.Number (F32.add left_number right_number))
    | .error _ =>
      match get_number_or_return_error right_value line with
      | .ok _ => .err (.InterpretError ("Expected String, got " ++ right_value.display) line)
      | .error _ => .ok (.String (left_value.value ++ right_value.value))
  | .Greater =>
    match get_number_or_return_error left_value line with
    | .error e => .err e
    | .ok left =>
      match get_number_or_return_error right_value line with
      | .error e => .err e
      | .ok right => .ok (.Boolean (F32.ltb right left))
  | .GreaterEqual =>
    match get_number_or_return_error left_value line with
    | .error e => .err e
    | .ok left =>
      match get_number_or_return_error right_value line with
      | .error e => .err e
      | .ok right => .ok (.Boolean (F32.leb right left))
  | .Less =>
    match get_number_or_return_error left_value line with
    | .error e => .err e
    | .ok left =>
      match get_number_or_return_error right_value line with
      | .error e => .err e
      | .ok right => .ok (.Boolean (F32.ltb left right))
  | .LessEqual =>
    match get_number_or_return_error left_value line with
    | .error e => .err e
    | .ok left =>
      match get_number_or_return_error right_value line with
      | .error e => .err e
      | .ok right => .ok (.Boolean (F32.leb left right))
  | .EqualEqual =>
    match is_equal left_value right_value with
    | some b => .ok (.Boolean b)
    | none => .panic
  | .BangEqual =>
    match is_equal left_value right_value with
    | some b => .ok (.Boolean (!b))
    | none => .panic
  | _ => .err (.InterpretError ("Unexpected Operator, got " ++ operator.lexeme) line)

/-- interpreter.rs `visit_literal` (lines 309-360). -/
def visitLiteral (lit : Token) : Res Ty :=
  let line := lit.line
  match lit.token_type with
  | .String =>
    match lit.literal with
    | some (.StringType string_val) => .ok (.String string_val)
    | some (.NumberType number_val) =>
        .err (.InterpretError ("Expected String, got Number: `" ++ F32.display number_val ++ "`") line)
    | none => .err (.InterpretError "Expected String, got None" line)
  | .Number =>
    match lit.literal with
    | some (.NumberType number_val) => .ok (.Number number_val)
    | some (.StringType string_val) =>
        .err (.InterpretError ("Expected String, got String: `" ++ string_val ++ "`") line)
    | none => .err (.InterpretError "Expected String, got None" line)
  | .True => .ok (.Boolean true)
  | .False => .ok (.Boolean false)
  | .Nil => .ok .Nil
  | _ => .err (.InterpretError "Unexpected! unreachable code reached" line)

/-- `HashMap::insert` on the association-list model of `HashMap<String, _>`:
replace in place, else append. -/
def hashInsert (k : String) (v : α) : List (String × α) → List (String × α)
  | [] => [(k, v)]
  | (k', v') :: t => if k' = k then (k, v) :: t else (k', v') :: hashInsert k v t

/-- `HashMap::get` on the association-list model. -/
def hashGet (k : String) : List (String × α) → Option α
  | [] => none
  | (k', v') :: t => if k' = k then some v' else hashGet k t

/-- types.rs `Class::find_method` (lines 210-221): own method table first,
then the superclass chain. -/
def ClassV.find_method : ClassV → String → Option Func
  | .mk _ _ none methods, method_name => hashGet method_name methods
  | .mk _ _ (some parent) methods, method_name =>
    match hashGet method_name methods with
    | some method => some method
    | none => parent.find_method method_name

/-- types.rs `Instance::get` (lines 161-175): own fields first, then the
class's methods (including the superclass chain). -/
def InstanceV.get (i : InstanceV) (name : Token) : Res Ty :=
  match hashGet name.lexeme i.fields with
  | some val => .ok val
  | none =>
    match i.cls.find_method name.lexeme with
    | some method => .ok (.Function method)
    | none => .err (.InterpretError "Property does not exist" name.line)

/-- types.rs `Instance::set` (lines 177-179).  Note: `visit_set` in
interpreter.rs only ever applies this to a by-value copy of the instance
(the `Type::Instance` it got from evaluating the object expression), which
is then dropped. -/
def InstanceV.set (i : InstanceV) (name : Token) (value : Ty) : InstanceV :=
  .mk i.cls (hashInsert name.lexeme value i.fields)

/-- types.rs `Function::new` (lines 45-61): panics (`none`) unless the
declaration is a `Stmt::Function`. -/
def Func.new (name : Token) (arity : Nat) (declaration : Stmt) (closure : Nat) :
    Option Func :=
  match declaration with
  | .Function _ _ _ => some (.mk name arity declaration closure)
  | _ => none

/-- Modelled from the spec: the feature-complete shared
(`Rc<RefCell<Environment>>`) Environment that interpreter.rs is written
against is not under src/ — src's environment.rs is a superseded by-value
snapshot whose signatures (`enclosing: Box<Option<Environment>>`,
`new(Option<Environment>)`) do not match interpreter.rs's call sites.  The
explicit store below models the Rc heap (spec §3 Environment, §9); the
`define`/`get`/`assign` logic follows spec §4.3 and coincides with the logic
of src/src/interpreter/environment.rs. -/
structure Env where
  enclosing : Option Nat
  values : List (String × Ty)

/-- The interpreter with its environment heap: `globals` and `environment`
are the two `Rc<RefCell<Environment>>` fields of `struct Interpreter`;
`output` is the `println!` sink (spec §6); `clock` is the host's
milliseconds-since-epoch reading used by the native clock function. -/
structure InterpState where
  store : List Env
  globals : Nat
  environment : Nat
  output : List String
  clock : Nat

/-- `Environment::define` on the environment at `envId`. -/
def defineIn (st : InterpState) (envId : Nat) (k : String) (v : Ty) : InterpState :=
  match st.store.get? envId with
  | some env =>
      { st with store := st.store.set envId { env with values := hashInsert k v env.values } }
  | none => st

/-- Observation helper: read one environment's own map directly. -/
def lookupStr (st : InterpState) (envId : Nat) (k : String) : Option Ty :=
  match st.store.get? envId with
  | some env => hashGet k env.values
  | none => none

/-- environment.rs `Environment::get`, lifted to the store (`gas` bounds the
parent-chain walk; chains are acyclic, so `store.length + 1` gas always
suffices). -/
def chainGet : Nat → InterpState → Nat → Token → Res Ty
  | 0, _, _, _ => .oof
  | gas + 1, st, envId, name =>
    match name.token_type with
    | .Identifier =>
      match st.store.get? envId with
      | none => .panic
      | some env =>
        match hashGet name.lexeme env.values with
        | some value => .ok value
        | none =>
          match env.enclosing with
          | some parent => chainGet gas st parent name
          | none =>
              .err (.InterpretError ("Undefined variable \x27" ++ name.lexeme ++ "\x27.") name.line)
    | _ => .err (.InterpretError "Attempt to get value of a non-identifier token." name.line)

/-- environment.rs `Environment::assign`, lifted to the store: mutate the
nearest scope that defines the name, error if undefined on the whole chain. -/
def chainAssign : Nat → InterpState → Nat → Token → Ty → Res Unit × InterpState
  | 0, st, _, _, _ => (.oof, st)
  | gas + 1, st, envId, token, value =>
    match st.store.get? envId with
    | none => (.panic, st)
    | some env =>
      match hashGet token.lexeme env.values with
      | some _ =>
          (.ok (),
           { st with
             store := st.store.set envId { env with values := hashInsert token.lexeme value env.values } })
      | none =>
        match env.enclosing with
        | some parent => chainAssign gas st parent token value
        | none =>
            (.err (.InterpretError ("Undefined variable " ++ token.lexeme) token.line), st)

/-- The method-table loop of interpreter.rs `visit_class` (lines 491-509):
every class-body statement must be a `Stmt::Function`; each `Function` value
is built with the CLASS name token, the method's parameter count, the method
statement itself, and the class's declaring environment. -/
def buildMethods (name : Token) (envId : Nat) :
    List Stmt → List (String × Func) → Res (List (String × Func))
  | [], acc => .ok acc
  | method :: rest, acc =>
    match method with
    | .Function m_name parameters _ =>
      match Func.new name parameters.length method envId with
      | some function => buildMethods name envId rest (hashInsert m_name.lexeme function acc)
      | none => .panic
    | _ => .err (.InterpretError "Method is not a function statement" name.line)

/-- The four non-primitive value kinds (callables and objects). -/
def Ty.isCallableKind : Ty → Bool
  | .Function _ => true
  | .NativeFunction _ => true
  | .Class _ => true
  | .Instance _ => true
  | _ => false

def Ty.isNumber : Ty → Bool
  | .Number _ => true
  | _ => false

def Ty.isClass : Ty → Bool
  | .Class _ => true
  | _ => false

/-- Requests to the fueled interpreter engine: one constructor per recursive
entry point of interpreter.rs / types.rs. -/
inductive Req where
  | ev (e : Expr)                                -- Interpreter::evaluate
  | evArgs (args : List Expr) (acc : List Ty)    -- argument loop of visit_call
  | ex (s : Stmt)                                -- Interpreter::execute
  | exList (ss : List Stmt)                      -- Interpreter::interpret loop
  | exBlock (ss : List Stmt) (envId : Nat)       -- Interpreter::execute_block
  | exBlockLoop (ss : List Stmt) (temp : Nat)    -- its statement loop, env already swapped
  | callFunc (f : Func) (args : List Ty)         -- Function::call
  | whileGo (cond : Expr) (body : Stmt)          -- loop of visit_whileloop

/-- Intermediate results of the engine: an expression value, a statement
result (the optional propagating return signal), or an evaluated argument
list. -/
inductive Out where
  | tv (t : Ty)
  | sig (s : Option Ty)
  | tvs (l : List Ty)

/-- Rust `?` on an expression evaluation: continue with the value, propagate
an error/panic.  (`.ok` of a non-value is a model artifact that cannot
occur; it maps to `panic`.) -/
def bindTv (r : Res Out × InterpState)
    (k : Ty → InterpState → Res Out × InterpState) : Res Out × InterpState :=
  match r with
  | (.ok (.tv v), st) => k v st
  | (.ok _, st) => (.panic, st)
  | (.err e, st) => (.err e, st)
  | (.panic, st) => (.panic, st)
  | (.oof, st) => (.oof, st)

/-- Parameter binding loop of types.rs `Function::call` (lines 90-92). -/
def bindParams (parameters : List Token) (arguments : List Ty) :
    List (String × Ty) :=
  List.foldl (fun vs pa => hashInsert pa.1.lexeme pa.2 vs) [] (parameters.zip arguments)

/-- The interpreter engine: a fueled, mutually-recursive-in-one-function
embedding of interpreter.rs (`evaluate`, `execute`, `execute_block`,
`interpret`, all `visit_*`) and types.rs (`Function::call`,
`NativeFunction::call`, `Class::call`). -/
def igo : Nat → InterpState → Req → Res Out × InterpState
  | 0, st, _ => (.oof, st)
  | n + 1, st, req =>
    match req with
    | .ev e =>
      match e with
      | .Literal lit =>
        (match visitLiteral lit with
         | .ok v => (.ok (.tv v), st)
         | .err er => (.err er, st)
         | .panic => (.panic, st)
         | .oof => (.oof, st))
      | .Grouping g => igo n st (.ev g)
      | .Variable tok =>
        (match chainGet (st.store.length + 1) st st.environment tok with
         | .ok v => (.ok (.tv v), st)
         | .err er => (.err er, st)
         | .panic => (.panic, st)
         | .oof => (.oof, st))
      | .Assign tok valueE =>
        bindTv (igo n st (.ev valueE)) fun value st1 =>
          match chainAssign (st1.store.length + 1) st1 st1.environment tok value with
          | (.ok _, st2) => (.ok (.tv value), st2)
          | (.err er, st2) => (.err er, st2)
          | (.panic, st2) => (.panic, st2)
          | (.oof, st2) => (.oof, st2)
      | .Binary l op r =>
        bindTv (igo n st (.ev l)) fun left_value st1 =>
          bindTv (igo n st1 (.ev r)) fun right_value st2 =>
            (match binaryOp op left_value right_value with
             | .ok v => (.ok (.tv v), st2)
             | .err er => (.err er, st2)
             | .panic => (.panic, st2)
             | .oof => (.oof, st2))
      | .Logical l op r =>
        bindTv (igo n st (.ev l)) fun left_value st1 =>
          match op.token_type with
          | .Or =>
            (match is_truthly left_value with
             | none => (.panic, st1)
             | some b => if b then (.ok (.tv left_value), st1) else igo n st1 (.ev r))
          | .And =>
            (match is_truthly left_value with
             | none => (.panic, st1)
             | some b => if !b then (.ok (.tv left_value), st1) else igo n st1 (.ev r))
          | _ => (.panic, st1)    -- println! then unreachable!()
      | .Unary op operand =>
        bindTv (igo n st (.ev operand)) fun right st1 =>
          match op.token_type with
          | .Minus =>
            (match right with
             | .Number val => (.ok (.tv (.Number (F32.neg val))), st1)
             | v => (.err (.InterpretError ("Expected Number, got " ++ v.display) op.line), st1))
          | .Bang =>
            (match is_truthly right with
             | some b => (.ok (.tv (.Boolean (!b))), st1)
             | none => (.panic, st1))
          | _ => (.err (.InterpretError ("Expected `!` or `-`, got " ++ op.lexeme) op.line), st1)
      | .Get obj name =>
        bindTv (igo n st (.ev obj)) fun o st1 =>
          match o with
          | .Instance inst =>
            (match inst.get name with
             | .ok v => (.ok (.tv v), st1)
             | .err er => (.err er, st1)
             | .panic => (.panic, st1)
             | .oof => (.oof, st1))
          | _ => (.err (.InterpretError "Only instances have properties" name.line), st1)
      | .Set obj name valueE =>
        bindTv (igo n st (.ev obj)) fun o st1 =>
          match o with
          | .Instance inst =>
            bindTv (igo n st1 (.ev valueE)) fun value st2 =>
              -- instance.set(name, &value) mutates the by-value copy `inst`,
              -- which is dropped right after; the store is unchanged
              let _ := inst.set name value
              (.ok (.tv .Nil), st2)
          | _ => (.err (.InterpretError "Only instances have fields" name.line), st1)
      | .Call callee closing_paren args =>
        bindTv (igo n st (.ev callee)) fun callee_v st1 =>
          match igo n st1 (.evArgs args []) with
          | (.ok (.tvs evaluated_arguments), st2) =>
            (match callee_v with
             | .Function to_call =>
               if to_call.arity ≠ evaluated_arguments.length then
                 (.err (.InterpretError
                    "Number of arguments does not match number of parameters"
                    closing_paren.line), st2)
               else igo n st2 (.callFunc to_call evaluated_arguments)
             | .NativeFunction to_call =>
               if to_call.arity ≠ evaluated_arguments.length then
                 (.err (.InterpretError
                    "Number of arguments does not match number of parameters"
                    closing_paren.line), st2)
               else
                 -- NativeFunction::call: runs to_call() — clock prints the
                 -- host's milliseconds reading — then returns Type::Nil
                 (match to_call.to_call with
                  | .clock =>
                    (.ok (.tv .Nil), { st2 with output := st2.output ++ [toString st2.clock] }))
             | .Class to_call =>
               if evaluated_arguments.length ≠ 0 then
                 (.err (.InterpretError
                    "Number of arguments does not match number of parameters"
                    closing_paren.line), st2)
               else
                 -- Class::call: a fresh Instance of the class
                 (.ok (.tv (.Instance (.mk to_call []))), st2)
             | _ => (.err (.InterpretError "Not a function" closing_paren.line), st2))
          | (.ok _, st2) => (.panic, st2)
          | (.err er, st2) => (.err er, st2)
          | (.panic, st2) => (.panic, st2)
          | (.oof, st2) => (.oof, st2)
    | .evArgs args acc =>
      match args with
      | [] => (.ok (.tvs acc), st)
      | a :: rest =>
        bindTv (igo n st (.ev a)) fun v st1 =>
          igo n st1 (.evArgs rest (acc ++ [v]))
    | .ex s =>
      match s with
      | .Block statements =>
        -- visit_block: child environment, then execute_block; the return
        -- signal (`Ok(Some _)`) is discarded — visit_block yields Ok(None)
        let envId := st.store.length
        let st1 := { st with store := st.store ++ [⟨some st.environment, []⟩] }
        (match igo n st1 (.exBlock statements envId) with
         | (.ok _, st2) => (.ok (.sig none), st2)
         | (.err er, st2) => (.err er, st2)
         | (.panic, st2) => (.panic, st2)
         | (.oof, st2) => (.oof, st2))
      | .Expression e =>
        bindTv (igo n st (.ev e)) fun _ st1 => (.ok (.sig none), st1)
      | .Print e =>
        bindTv (igo n st (.ev e)) fun value st1 =>
          (.ok (.sig none), { st1 with output := st1.output ++ [value.display] })
      | .Var token init =>
        (match init with
         | some val =>
           bindTv (igo n st (.ev val)) fun v st1 =>
             (.ok (.sig none), defineIn st1 st1.environment token.lexeme v)
         | none => (.ok (.sig none), defineIn st st.environment token.lexeme .Nil))
      | .IfElse condition then_branch else_branch =>
        bindTv (igo n st (.ev condition)) fun c st1 =>
          match is_truthly c with
          | none => (.panic, st1)
          | some b =>
            if b then igo n st1 (.ex then_branch)
            else
              match else_branch with
              | some eb => igo n st1 (.ex eb)
              | none => (.ok (.sig none), st1)
      | .WhileLoop condition statement => igo n st (.whileGo condition statement)
      | .Function name parameters body =>
        -- visit_function: the Function value closes over the ACTIVE
        -- environment, but is defined into the GLOBALS environment
        -- (interpreter.rs lines 624-626)
        let function : Func :=
          .mk name parameters.length (.Function name parameters body) st.environment
        (.ok (.sig none), defineIn st st.globals name.lexeme (.Function function))
      | .ret _keyword e =>
        bindTv (igo n st (.ev e)) fun v st1 => (.ok (.sig (some v)), st1)
      | .classDecl name superclass statements =>
        -- visit_class, after the first superclass evaluation + check:
        -- define name ↦ Nil, build methods, evaluate the superclass a
        -- second time, construct the Class, assign (result ignored)
        let afterCheck : InterpState → Res Out × InterpState := fun stc =>
          let st2 := defineIn stc stc.environment name.lexeme .Nil
          match buildMethods name st2.environment statements [] with
          | .err er => (.err er, st2)
          | .panic => (.panic, st2)
          | .oof => (.oof, st2)
          | .ok methods =>
            match superclass with
            | some some_parent =>
              bindTv (igo n st2 (.ev some_parent)) fun parent_val st3 =>
                match parent_val with
                | .Class parent_class =>
                  let cls := ClassV.mk name.lexeme 0 (some parent_class) methods
                  let r := chainAssign (st3.store.length + 1) st3 st3.environment name (.Class cls)
                  (.ok (.sig none), r.2)
                | _ => (.err (.InterpretError "Sueprclass must be a class" name.line), st3)
            | none =>
              let cls := ClassV.mk name.lexeme 0 none methods
              let r := chainAssign (st2.store.length + 1) st2 st2.environment name (.Class cls)
              (.ok (.sig none), r.2)
        match superclass with
        | some parent_ =>
          bindTv (igo n st (.ev parent_)) fun parent st1 =>
            match parent with
            | .Class _ => afterCheck st1
            | _ => (.err (.InterpretError "Superclass must be a class" name.line), st1)
        | none => afterCheck st
    | .exList ss =>
      match ss with
      | [] => (.ok (.sig none), st)
      | s :: rest =>
        (match igo n st (.ex s) with
         | (.ok _, st1) => igo n st1 (.exList rest)
         | (.err er, st1) => (.err er, st1)
         | (.panic, st1) => (.panic, st1)
         | (.oof, st1) => (.oof, st1))
    | .exBlock ss envId =>
      -- execute_block: save the active environment, swap in the new one
      let temp := st.environment
      igo n { st with environment := envId } (.exBlockLoop ss temp)
    | .exBlockLoop ss temp =>
      match ss with
      | [] => (.ok (.sig none), { st with environment := temp })
      | s :: rest =>
        (match igo n st (.ex s) with
         | (.err er, st1) => (.err er, { st1 with environment := temp })
         | (.ok (.sig (some return_val)), st1) =>
           -- early return: source returns WITHOUT restoring the previous
           -- environment (interpreter.rs lines 142-146)
           (.ok (.sig (some return_val)), st1)
         | (.ok (.sig none), st1) => igo n st1 (.exBlockLoop rest temp)
         | (.ok _, st1) => (.panic, st1)
         | (.panic, st1) => (.panic, st1)
         | (.oof, st1) => (.oof, st1))
    | .callFunc f arguments =>
      (match f.declaration with
       | .Function _name parameters body =>
         if parameters.length ≤ arguments.length then
           let environment : Env := ⟨some f.closure, bindParams parameters arguments⟩
           let envId := st.store.length
           let st1 := { st with store := st.store ++ [environment] }
           match igo n st1 (.exBlock body envId) with
           | (.ok (.sig (some return_value)), st2) => (.ok (.tv return_value), st2)
           | (.ok (.sig none), st2) => (.ok (.tv .Nil), st2)
           | (.ok _, st2) => (.panic, st2)
           | (.err er, st2) => (.err er, st2)
           | (.panic, st2) => (.panic, st2)
           | (.oof, st2) => (.oof, st2)
         else (.panic, st)       -- arguments[i] index out of bounds
       | _ => (.err (.InterpretError "Calling a non-callable" f.name.line), st))
    | .whileGo condition statement =>
      bindTv (igo n st (.ev condition)) fun c st1 =>
        match is_truthly c with
        | none => (.panic, st1)
        | some b =>
          if b then
            -- `self.execute(statement)?`: only an Err propagates; an
            -- Ok(Some _) return signal is discarded and the loop continues
            match igo n st1 (.ex statement) with
            | (.ok _, st2) => igo n st2 (.whileGo condition statement)
            | (.err er, st2) => (.err er, st2)
            | (.panic, st2) => (.panic, st2)
            | (.oof, st2) => (.oof, st2)
          else (.ok (.sig none), st1)

/-- interpreter.rs `Interpreter::evaluate`. -/
def evaluate (fuel : Nat) (st : InterpState) (e : Expr) : Res Ty × InterpState :=
  match igo fuel st (.ev e) with
  | (.ok (.tv v), st1) => (.ok v, st1)
  | (.ok _, st1) => (.panic, st1)
  | (.err er, st1) => (.err er, st1)
  | (.panic, st1) => (.panic, st1)
  | (.oof, st1) => (.oof, st1)

/-- interpreter.rs `Interpreter::execute`. -/
def execute (fuel : Nat) (st : InterpState) (s : Stmt) : Res (Option Ty) × InterpState :=
  match igo fuel st (.ex s) with
  | (.ok (.sig r), st1) => (.ok r, st1)
  | (.ok _, st1) => (.panic, st1)
  | (.err er, st1) => (.err er, st1)
  | (.panic, st1) => (.panic, st1)
  | (.oof, st1) => (.oof, st1)

/-- interpreter.rs `Interpreter::interpret` (always yields `Ok(None)` on
success). -/
def interpret (fuel : Nat) (st : InterpState) (stmts : List Stmt) :
    Res (Option Ty) × InterpState :=
  match igo fuel st (.exList stmts) with
  | (.ok _, st1) => (.ok none, st1)
  | (.err er, st1) => (.err er, st1)
  | (.panic, st1) => (.panic, st1)
  | (.oof, st1) => (.oof, st1)

/-- The one native function seeded by `Interpreter::new`. -/
def clockNative : NativeFn := ⟨"clock", 0, .clock⟩

/-- interpreter.rs `Interpreter::new` (lines 26-53): a fresh globals
environment holding exactly the native `clock` binding; the active
environment is a fresh environment enclosed by `globals` (when `enclosing`
is `None`, as in main.rs) or by the supplied enclosing environment. -/
def interpreterNew (enclosing : Option Env) (clockMs : Nat) : InterpState :=
  let globalsEnv : Env := ⟨none, hashInsert "clock" (.NativeFunction clockNative) []⟩
  match enclosing with
  | some parent_environment =>
    { store := [globalsEnv, parent_environment, ⟨some 1, []⟩],
      globals := 0, environment := 2, output := [], clock := clockMs }
  | none =>
    { store := [globalsEnv, ⟨some 0, []⟩],
      globals := 0, environment := 1, output := [], clock := clockMs }

/-! ## Scanner — src/src/lexer/lexer.rs (the feature-complete `Lexer` with a
keyword table; the top-level src/src/lexer.rs is a superseded snapshot). -/

/-- lexer.rs `struct Lexer` (the keyword map is the fixed table in
`Lexer::new`, embedded as `keywordLookup`). -/
structure LexState where
  source_code : List Char
  tokens : List Token
  start : Nat
  current : Nat
  line : Nat
  errors : List Error
deriving Repr, DecidableEq

/-- Outcome of a scan step: `panic` carries the lexer state at the panic
point (so already-recorded errors/tokens can be inspected); `oof` is the
fuel artifact (unreachable for the fuel used by `scan`). -/
inductive LexStep where
  | ok (st : LexState)
  | panic (st : LexState)
  | oof (st : LexState)
deriving Repr, DecidableEq

/-- lexer.rs `Lexer::new`. -/
def lexerNew (source_code : List Char) : LexState :=
  ⟨source_code, [], 0, 0, 1, []⟩

/-- The keyword table of `Lexer::new` (lines 25-42). -/
def keywordLookup (s : String) : Option TokenType :=
  if s = "and" then some .And
  else if s = "class" then some .Class
  else if s = "else" then some .Else
  else if s = "false" then some .False
  else if s = "for" then some .For
  else if s = "fun" then some .Fun
  else if s = "if" then some .If
  else if s = "nil" then some .Nil
  else if s = "or" then some .Or
  else if s = "print" then some .Print
  else if s = "return" then some .Return
  else if s = "super" then some .Super
  else if s = "this" then some .This
  else if s = "true" then some .True
  else if s = "var" then some .Var
  else if s = "while" then some .While
  else none

/-- lexer.rs `is_at_end`. -/
def lexIsAtEnd (lx : LexState) : Bool :=
  decide (lx.source_code.length ≤ lx.current)

/-- lexer.rs `peek` (returns the NUL sentinel at end of input). -/
def lexPeek (lx : LexState) : Char :=
  if lexIsAtEnd lx then '\x00' else lx.source_code.getD lx.current '\x00'

/-- lexer.rs `peek_next`. -/
def lexPeekNext (lx : LexState) : Char :=
  if lx.source_code.length ≤ lx.current + 1 then '\x00'
  else lx.source_code.getD (lx.current + 1) '\x00'

/-- lexer.rs `match_next` (never panics: both branches check bounds first). -/
def lexMatchNext (lx : LexState) (expected_next : Char) : Bool × LexState :=
  if lexIsAtEnd lx then (false, lx)
  else if lx.source_code.getD lx.current '\x00' ≠ expected_next then (false, lx)
  else (true, { lx with current := lx.current + 1 })

/-- lexer.rs `add_token`: lexeme is the `start..current` source slice. -/
def lexAddToken (lx : LexState) (token_type : TokenType)
    (literal : Option LiteralType) : LexState :=
  let text := String.mk ((lx.source_code.drop lx.start).take (lx.current - lx.start))
  { lx with tokens := lx.tokens ++ [⟨token_type, text, literal, lx.line⟩] }

/-- lexer.rs `is_alpha` (`is_ascii_alphabetic || c == '_'`). -/
def is_alpha (c : Char) : Bool := c.isAlpha || c = '_'

/-- lexer.rs `is_alphanumeric`. -/
def is_alphanumeric (c : Char) : Bool := is_alpha c || c.isDigit

/-- The scanning loop inside `string_literal` (lines 174-181): advance until
a closing quote or end of input, counting embedded newlines.  The guard
ensures `advance` cannot panic here.  Each iteration advances `current`, so
`source_code.length + 1` fuel always suffices. -/
def stringLoop : Nat → LexState → LexState
  | 0, lx => lx
  | fl + 1, lx =>
    let next_char := lexPeek lx
    if next_char ≠ '"' ∧ next_char ≠ '\x00' then
      let lx1 := if next_char = '\n' then { lx with line := lx.line + 1 } else lx
      stringLoop fl { lx1 with current := lx1.current + 1 }
    else lx

/-- lexer.rs `string_literal` (lines 172-200).  After an unterminated
string the error is recorded at the CURRENT line, and the unconditional
"consume the closing quote" `advance()` indexes past the end of the source:
a panic (`none`). -/
def string_literal (lx0 : LexState) : LexStep :=
  let lx := stringLoop (lx0.source_code.length + 1) lx0
  let lx1 :=
    if lexPeek lx = '\x00' then
      { lx with errors := lx.errors ++ [.LexError "Unterminated String" lx.line] }
    else lx
  -- `let _ = self.advance();`
  if lexIsAtEnd lx1 then .panic lx1
  else
    let lx2 := { lx1 with current := lx1.current + 1 }
    let string_lit :=
      String.mk ((lx2.source_code.drop (lx2.start + 1)).take (lx2.current - 1 - (lx2.start + 1)))
    .ok (lexAddToken lx2 .String (some (.StringType string_lit)))

/-- The digit-scanning loops of `number_literal`. -/
def digitLoop : Nat → LexState → LexState
  | 0, lx => lx
  | fl + 1, lx =>
    if (lexPeek lx).isDigit then digitLoop fl { lx with current := lx.current + 1 }
    else lx

/-- Value of a scanned numeric lexeme (digits, optionally `.` digits): the
model of `str::parse::<f32>().unwrap()`, which cannot fail on slices of
this shape. -/
def parseNumChars (cs : List Char) : F32 :=
  let intPart := cs.takeWhile (· ≠ '.')
  let fracPart := (cs.dropWhile (· ≠ '.')).drop 1
  let iv : Int := List.foldl (fun acc c => acc * 10 + ((c.toNat : Int) - 48)) 0 intPart
  let fv : Int := List.foldl (fun acc c => acc * 10 + ((c.toNat : Int) - 48)) 0 fracPart
  ⟨iv * (10 : Int) ^ fracPart.length + fv, (10 : Int) ^ fracPart.length⟩

/-- lexer.rs `number_literal` (lines 202-225): digits, then a fractional
part only when `.` is followed by a digit. -/
def number_literal (lx0 : LexState) : LexState :=
  let lx := digitLoop (lx0.source_code.length + 1) lx0
  let lx1 :=
    if lexPeek lx = '.' ∧ (lexPeekNext lx).isDigit then
      digitLoop (lx.source_code.length + 1) { lx with current := lx.current + 1 }
    else lx
  let cs := (lx1.source_code.drop lx1.start).take (lx1.current - lx1.start)
  lexAddToken lx1 .Number (some (.NumberType (parseNumChars cs)))

/-- The identifier-scanning loop of `identifier`. -/
def identLoop : Nat → LexState → LexState
  | 0, lx => lx
  | fl + 1, lx =>
    if is_alphanumeric (lexPeek lx) then identLoop fl { lx with current := lx.current + 1 }
    else lx

/-- lexer.rs `identifier` (lines 159-170): scan, then classify against the
keyword table. -/
def identifier (lx0 : LexState) : LexState :=
  let lx := identLoop (lx0.source_code.length + 1) lx0
  let identifier_text := String.mk ((lx.source_code.drop lx.start).take (lx.current - lx.start))
  match keywordLookup identifier_text with
  | some val => lexAddToken lx val none
  | none => lexAddToken lx .Identifier none

/-- The comment-skipping loop of `scan_token` (lines 127-133). -/
def commentLoop : Nat → LexState → LexState
  | 0, lx => lx
  | fl + 1, lx =>
    let next_char := lexPeek lx
    if next_char ≠ '\n' ∧ next_char ≠ '\x00' then
      commentLoop fl { lx with current := lx.current + 1 }
    else lx

/-- lexer.rs `scan_token` (lines 64-157). -/
def scan_token (lx0 : LexState) : LexStep :=
  match lx0.source_code.get? lx0.current with
  | none => .panic lx0      -- `advance` out of bounds (scan guards against this)
  | some c =>
    let lx := { lx0 with current := lx0.current + 1 }
    if c = '\n' then .ok { lx with line := lx.line + 1 }
    else if c = '(' then .ok (lexAddToken lx .LeftParen none)
    else if c = ')' then .ok (lexAddToken lx .RightParen none)
    else if c = '\x7b' then .ok (lexAddToken lx .LeftBrace none)
    else if c = '\x7d' then .ok (lexAddToken lx .RightBrace none)
    else if c = '.' then .ok (lexAddToken lx .Dot none)
    else if c = ',' then .ok (lexAddToken lx .Comma none)
    else if c = '+' then .ok (lexAddToken lx .Plus none)
    else if c = '-' then .ok (lexAddToken lx .Minus none)
    else if c = '*' then .ok (lexAddToken lx .Star none)
    else if c = ';' then .ok (lexAddToken lx .SemiColon none)
    else if c = '!' then
      let (is_bang_equal, lx1) := lexMatchNext lx '='
      .ok (lexAddToken lx1 (if is_bang_equal then .BangEqual else .Bang) none)
    else if c = '=' then
      let (is_equal_equal, lx1) := lexMatchNext lx '='
      .ok (lexAddToken lx1 (if is_equal_equal then .EqualEqual else .Equal) none)
    else if c = '<' then
      let (is_less_equal, lx1) := lexMatchNext lx '='
      .ok (lexAddToken lx1 (if is_less_equal then .LessEqual else .Less) none)
    else if c = '>' then
      let (is_greater_equal, lx1) := lexMatchNext lx '='
      .ok (lexAddToken lx1 (if is_greater_equal then .GreaterEqual else .Greater) none)
    else if c = '/' then
      let (is_comment, lx1) := lexMatchNext lx '/'
      if is_comment then .ok (commentLoop (lx1.source_code.length + 1) lx1)
      else .ok (lexAddToken lx1 .Slash none)
    else if c = '"' then string_literal lx
    else if c.isDigit then .ok (number_literal lx)
    else if is_alpha c then .ok (identifier lx)
    else .ok { lx with errors := lx.errors ++ [.LexError "Unexpected Token" lx.line] }

/-- The loop of lexer.rs `scan` (lines 48-53): each `scan_token` consumes at
least one character, so `source_code.length + 1` fuel suffices. -/
def scanLoop : Nat → LexState → LexStep
  | 0, lx => .oof lx
  | fl + 1, lx =>
    if lexIsAtEnd lx then .ok lx
    else
      match scan_token { lx with start := lx.current } with
      | .ok lx1 => scanLoop fl lx1
      | r => r

/-- lexer.rs `scan` (lines 46-62): scan to the end, then append the final
EOF token carrying the final line number. -/
def scan (lx : LexState) : LexStep :=
  match scanLoop (lx.source_code.length + 1) lx with
  | .ok lx1 => .ok { lx1 with tokens := lx1.tokens ++ [⟨.EOF, "", none, lx1.line⟩] }
  | r => r

/-! ## Parser — src/src/parser/parser.rs (the feature-complete
recursive-descent parser; the top-level src/src/parser.rs is a superseded
snapshot). -/

/-- parser.rs `struct Parser`. -/
structure PState where
  tokens : List Token
  current : Nat
  statements : List Stmt
  errors : List Error
deriving Repr

/-- parser.rs `Parser::new`. -/
def parserNew (tokens : List Token) : PState := ⟨tokens, 0, [], []⟩

/-- parser.rs `peek` (`tokens[current]` — `none` is the Rust index panic). -/
def pPeek (p : PState) : Option Token := p.tokens.get? p.current

/-- parser.rs `previous` (`tokens[current - 1]` — at `current = 0` the Rust
usize subtraction panics: `none`). -/
def pPrevious (p : PState) : Option Token :=
  if p.current = 0 then none else p.tokens.get? (p.current - 1)

/-- parser.rs `is_at_end`. -/
def pIsAtEnd (p : PState) : Option Bool :=
  (pPeek p).map (fun t => decide (t.token_type = .EOF))

/-- parser.rs `check`. -/
def pCheck (p : PState) (token_type : TokenType) : Option Bool :=
  match pIsAtEnd p with
  | none => none
  | some true => some false
  | some false => (pPeek p).map (fun t => decide (t.token_type = token_type))

/-- parser.rs `advance` (no move past EOF; returns `previous`). -/
def pAdvance (p : PState) : Option (Token × PState) :=
  match pIsAtEnd p with
  | none => none
  | some b =>
    let p1 := if b then p else { p with current := p.current + 1 }
    (pPrevious p1).map (fun t => (t, p1))

/-- parser.rs `match_next`: advance when the current token is among the
given types. -/
def pMatchNext : PState → List TokenType → Option (Bool × PState)
  | p, [] => some (false, p)
  | p, token_type :: rest =>
    match pCheck p token_type with
    | none => none
    | some true => (pAdvance p).map (fun tp => (true, tp.2))
    | some false => pMatchNext p rest

/-- parser.rs `push_error`: record a ParseError at `previous().line` and
return it. -/
def pPushError (p : PState) (error_message : String) : Option (Error × PState) :=
  (pPrevious p).map (fun t =>
    let e := Error.ParseError error_message t.line
    (e, { p with errors := p.errors ++ [e] }))

/-- parser.rs `consume`: advance past the expected token type or record an
error. -/
def pConsume (p : PState) (token_type : TokenType) (message : String) :
    Option (Res Token × PState) :=
  match pCheck p token_type with
  | none => none
  | some true => (pAdvance p).map (fun (t, p1) => (Res.ok t, p1))
  | some false => (pPushError p message).map (fun (e, p1) => (Res.err e, p1))

/-- Requests to the fueled parser engine: one constructor per recursive
entry point (or inner loop) of parser.rs. -/
inductive PReq where
  | expression | assignment | logic_or | logic_and
  | equality | equalityLoop (expr : Expr)
  | comparison | comparisonLoop (expr : Expr)
  | term | factor | unary
  | call | callLoop (expr : Expr)
  | finish_call (callee : Expr) | argsLoop (callee : Expr) (arguments : List Expr)
  | primary
  | declaration | statement
  | fun_declaration | functionDecl (callable_type : String)
  | paramsLoop (parameters : List Token)
  | var_declaration | for_statement | while_statement | if_statement
  | return_statement | block | blockLoop (statements : List Stmt)
  | print_statement | expression_statement
  | parseLoop | synchronizeLoop

/-- Intermediate results of the parser engine. -/
inductive POut where
  | ex (e : Expr)
  | st (s : Stmt)
  | sts (l : List Stmt)
  | tks (l : List Token)
  | unit

/-- Rust `?` on a sub-parse producing an expression. -/
def pBindEx (r : Res POut × PState) (k : Expr → PState → Res POut × PState) :
    Res POut × PState :=
  match r with
  | (.ok (.ex e), p) => k e p
  | (.ok _, p) => (.panic, p)
  | (.err e, p) => (.err e, p)
  | (.panic, p) => (.panic, p)
  | (.oof, p) => (.oof, p)

/-- Rust `?` on a sub-parse producing a statement. -/
def pBindSt (r : Res POut × PState) (k : Stmt → PState → Res POut × PState) :
    Res POut × PState :=
  match r with
  | (.ok (.st s), p) => k s p
  | (.ok _, p) => (.panic, p)
  | (.err e, p) => (.err e, p)
  | (.panic, p) => (.panic, p)
  | (.oof, p) => (.oof, p)

/-- Rust `?` on a sub-parse producing a statement list. -/
def pBindSts (r : Res POut × PState) (k : List Stmt → PState → Res POut × PState) :
    Res POut × PState :=
  match r with
  | (.ok (.sts l), p) => k l p
  | (.ok _, p) => (.panic, p)
  | (.err e, p) => (.err e, p)
  | (.panic, p) => (.panic, p)
  | (.oof, p) => (.oof, p)

/-- Rust `?` on a `consume` call (the `Option` is an index panic). -/
def pBindConsume (r : Option (Res Token × PState)) (pDef : PState)
    (k : Token → PState → Res POut × PState) : Res POut × PState :=
  match r with
  | none => (.panic, pDef)
  | some (.ok t, p1) => k t p1
  | some (.err e, p1) => (.err e, p1)
  | some (.panic, p1) => (.panic, p1)
  | some (.oof, p1) => (.oof, p1)

/-- Rust `let _ = consume(...)` (result ignored, errors still recorded). -/
def pIgnoreConsume (r : Option (Res Token × PState)) (pDef : PState)
    (k : PState → Res POut × PState) : Res POut × PState :=
  match r with
  | none => (.panic, pDef)
  | some (_, p1) => k p1

/-- The parser engine: a fueled embedding of every production of parser.rs.
Note the grammar quirk faithfully kept from the source: `term`, `factor`,
`logic_or` and `logic_and` use a single `if` (at most one operator
consumed), while `equality` and `comparison` use a `while` loop
(left-associative repetition). -/
def pgo : Nat → PState → PReq → Res POut × PState
  | 0, p, _ => (.oof, p)
  | n + 1, p, req =>
    match req with
    | .parseLoop =>
      (match pIsAtEnd p with
       | none => (.panic, p)
       | some true => (.ok .unit, p)
       | some false =>
         match pgo n p .declaration with
         | (.ok (.st s), p1) =>
           pgo n { p1 with statements := p1.statements ++ [s] } .parseLoop
         | (.ok _, p1) => (.panic, p1)
         | (.err _, p1) =>
           (match pgo n p1 .synchronizeLoop with
            | (.ok _, p2) => pgo n p2 .parseLoop
            | other => other)
         | (.panic, p1) => (.panic, p1)
         | (.oof, p1) => (.oof, p1))
    | .synchronizeLoop =>
      (match pIsAtEnd p with
       | none => (.panic, p)
       | some true => (.ok .unit, p)
       | some false =>
         match pPrevious p with
         | none => (.panic, p)
         | some prev =>
           if prev.token_type = .SemiColon then (.ok .unit, p)
           else
             match pPeek p with
             | none => (.panic, p)
             | some tk =>
               match tk.token_type with
               | .Class | .Fun | .Var | .For | .If | .While | .Print | .Return =>
                 (.ok .unit, p)
               | _ =>
                 match pAdvance p with
                 | none => (.panic, p)
                 | some (_, p1) => pgo n p1 .synchronizeLoop)
    | .declaration =>
      (match pMatchNext p [.Fun] with
       | none => (.panic, p)
       | some (true, p1) => pgo n p1 .fun_declaration
       | some (false, p1) =>
         match pMatchNext p1 [.Var] with
         | none => (.panic, p1)
         | some (true, p2) => pgo n p2 .var_declaration
         | some (false, p2) => pgo n p2 .statement)
    | .fun_declaration => pgo n p (.functionDecl "function")
    | .functionDecl callable_type =>
      pBindConsume (pConsume p .Identifier ("Expected a " ++ callable_type ++ " name")) p
        fun name p1 =>
          pIgnoreConsume
            (pConsume p1 .LeftParen "Expected `(` after function name in declaration") p1
            fun p2 =>
              let afterParams : List Token → PState → Res POut × PState :=
                fun parameters p3 =>
                  pIgnoreConsume (pConsume p3 .RightParen "Expected a `)` after parameters") p3
                    fun p4 =>
                      pIgnoreConsume
                        (pConsume p4 .LeftBrace
                          "Expected `\x7b` in function declaration and define function block") p4
                        fun p5 =>
                          pBindSts (pgo n p5 .block) fun body p6 =>
                            (.ok (.st (.Function name parameters body)), p6)
              match pCheck p2 .RightParen with
              | none => (.panic, p2)
              | some true => afterParams [] p2
              | some false =>
                match pgo n p2 (.paramsLoop []) with
                | (.ok (.tks parameters), p3) => afterParams parameters p3
                | (.ok _, p3) => (.panic, p3)
                | (.err e, p3) => (.err e, p3)
                | (.panic, p3) => (.panic, p3)
                | (.oof, p3) => (.oof, p3)
    | .paramsLoop parameters =>
      let pushStep : Option PState :=
        if parameters.length = 255 then
          (pPushError p "Too many parameters: 255 parameters allowed").map (·.2)
        else some p
      (match pushStep with
       | none => (.panic, p)
       | some p1 =>
         pBindConsume (pConsume p1 .Identifier "Expected a parameter name") p1
           fun tok p2 =>
             match pMatchNext p2 [.Comma] with
             | none => (.panic, p2)
             | some (true, p3) => pgo n p3 (.paramsLoop (parameters ++ [tok]))
             | some (false, p3) => (.ok (.tks (parameters ++ [tok])), p3))
    | .var_declaration =>
      pBindConsume (pConsume p .Identifier "Expected a variable name") p
        fun variable_name p1 =>
          (match pMatchNext p1 [.Equal] with
           | none => (.panic, p1)
           | some (true, p2) =>
             pBindEx (pgo n p2 .expression) fun initE p3 =>
               pBindConsume (pConsume p3 .SemiColon "Expected `;` in the end") p3
                 fun _ p4 => (.ok (.st (.Var variable_name (some initE))), p4)
           | some (false, p2) =>
             pBindConsume (pConsume p2 .SemiColon "Expected `;` in the end") p2
               fun _ p3 => (.ok (.st (.Var variable_name none)), p3))
    | .statement =>
      (match pMatchNext p [.For] with
       | none => (.panic, p)
       | some (true, p1) => pgo n p1 .for_statement
       | some (false, p1) =>
         match pMatchNext p1 [.While] with
         | none => (.panic, p1)
         | some (true, p2) => pgo n p2 .while_statement
         | some (false, p2) =>
           match pMatchNext p2 [.If] with
           | none => (.panic, p2)
           | some (true, p3) => pgo n p3 .if_statement
           | some (false, p3) =>
             match pMatchNext p3 [.Print] with
             | none => (.panic, p3)
             | some (true, p4) => pgo n p4 .print_statement
             | some (false, p4) =>
               match pMatchNext p4 [.Return] with
               | none => (.panic, p4)
               | some (true, p5) => pgo n p5 .return_statement
               | some (false, p5) =>
                 match pMatchNext p5 [.LeftBrace] with
                 | none => (.panic, p5)
                 | some (true, p6) =>
                   pBindSts (pgo n p6 .block) fun l p7 => (.ok (.st (.Block l)), p7)
                 | some (false, p6) => pgo n p6 .expression_statement)
    | .for_statement =>
      pBindConsume (pConsume p .LeftParen "Expected `(` after `for`") p
        fun _ p1 =>
          let withInit : Option Stmt → PState → Res POut × PState :=
            fun initializer p2 =>
              let withCond : Option Expr → PState → Res POut × PState :=
                fun condition p3 =>
                  pBindConsume (pConsume p3 .SemiColon "Expected `;` after loop condition") p3
                    fun _ p4 =>
                      let withIncr : Option Expr → PState → Res POut × PState :=
                        fun incrementer p5 =>
                          pBindConsume
                            (pConsume p5 .RightParen "Expected `)` after for clauses") p5
                            fun _ p6 =>
                              pBindSt (pgo n p6 .statement) fun loop_body0 p7 =>
                                -- desugar the for loop into a while loop
                                let loop_body1 :=
                                  match incrementer with
                                  | some incrementer_ =>
                                    Stmt.Block [loop_body0, .Expression incrementer_]
                                  | none => loop_body0
                                let condition_ :=
                                  match condition with
                                  | some c => c
                                  | none => Expr.Literal ⟨.True, "true", none, 1⟩
                                let loop_body2 := Stmt.WhileLoop condition_ loop_body1
                                let loop_body3 :=
                                  match initializer with
                                  | some initializer_ => Stmt.Block [initializer_, loop_body2]
                                  | none => loop_body2
                                (.ok (.st loop_body3), p7)
                      match pCheck p4 .SemiColon with
                      | none => (.panic, p4)
                      | some true => withIncr none p4
                      | some false =>
                        pBindEx (pgo n p4 .expression) fun incr p5 =>
                          withIncr (some incr) p5
              match pCheck p2 .SemiColon with
              | none => (.panic, p2)
              | some true => withCond none p2
              | some false =>
                pBindEx (pgo n p2 .expression) fun c p3 => withCond (some c) p3
          match pMatchNext p1 [.SemiColon] with
          | none => (.panic, p1)
          | some (true, p2) => withInit none p2
          | some (false, p2) =>
            match pMatchNext p2 [.Var] with
            | none => (.panic, p2)
            | some (true, p3) =>
              pBindSt (pgo n p3 .var_declaration) fun s p4 => withInit (some s) p4
            | some (false, p3) =>
              pBindSt (pgo n p3 .expression_statement) fun s p4 => withInit (some s) p4
    | .while_statement =>
      pBindConsume (pConsume p .LeftParen "Expected `(` after while") p
        fun _ p1 =>
          pBindEx (pgo n p1 .expression) fun condition p2 =>
            pBindConsume (pConsume p2 .RightParen "Expected `)` after condition") p2
              fun _ p3 =>
                pBindSt (pgo n p3 .statement) fun loop_body p4 =>
                  (.ok (.st (.WhileLoop condition loop_body)), p4)
    | .if_statement =>
      pBindConsume (pConsume p .LeftParen "Expected `(` after if") p
        fun _ p1 =>
          pBindEx (pgo n p1 .expression) fun condition p2 =>
            pBindConsume (pConsume p2 .RightParen "Expected `)` after condition") p2
              fun _ p3 =>
                pBindSt (pgo n p3 .statement) fun then_branch p4 =>
                  match pMatchNext p4 [.Else] with
                  | none => (.panic, p4)
                  | some (true, p5) =>
                    pBindSt (pgo n p5 .statement) fun else_branch p6 =>
                      (.ok (.st (.IfElse condition then_branch (some else_branch))), p6)
                  | some (false, p5) =>
                    (.ok (.st (.IfElse condition then_branch none)), p5)
    | .return_statement =>
      (match pPrevious p with
       | none => (.panic, p)
       | some return_keyword =>
         let default_value : Expr := .Literal ⟨.Nil, "nil", none, return_keyword.line⟩
         let finish : Expr → PState → Res POut × PState :=
           fun return_value p2 =>
             pBindConsume
               (pConsume p2 .SemiColon "Expected a `;` in the end of a statement") p2
               fun _ p3 => (.ok (.st (.ret return_keyword return_value)), p3)
         match pCheck p .SemiColon with
         | none => (.panic, p)
         | some true => finish default_value p
         | some false =>
           pBindEx (pgo n p .expression) fun v p2 => finish v p2)
    | .block => pgo n p (.blockLoop [])
    | .blockLoop statements =>
      (match pCheck p .RightBrace with
       | none => (.panic, p)
       | some true =>
         pBindConsume (pConsume p .RightBrace "Expected `\x7d` at the end of block") p
           fun _ p1 => (.ok (.sts statements), p1)
       | some false =>
         match pIsAtEnd p with
         | none => (.panic, p)
         | some true =>
           pBindConsume (pConsume p .RightBrace "Expected `\x7d` at the end of block") p
             fun _ p1 => (.ok (.sts statements), p1)
         | some false =>
           pBindSt (pgo n p .declaration) fun s p1 =>
             pgo n p1 (.blockLoop (statements ++ [s])))
    | .print_statement =>
      pBindEx (pgo n p .expression) fun e p1 =>
        pBindConsume (pConsume p1 .SemiColon "Expected `;` at the end") p1
          fun _ p2 => (.ok (.st (.Print e)), p2)
    | .expression_statement =>
      pBindEx (pgo n p .expression) fun e p1 =>
        pBindConsume (pConsume p1 .SemiColon "Expected `;` at the end") p1
          fun _ p2 => (.ok (.st (.Expression e)), p2)
    | .expression => pgo n p .assignment
    | .assignment =>
      pBindEx (pgo n p .logic_or) fun left_side_identifier p1 =>
        (match pMatchNext p1 [.Equal] with
         | none => (.panic, p1)
         | some (true, p2) =>
           (match pPrevious p2 with
            | none => (.panic, p2)
            | some _equals =>
              pBindEx (pgo n p2 .assignment) fun right_side_expr p3 =>
                match left_side_identifier with
                | .Variable token => (.ok (.ex (.Assign token right_side_expr)), p3)
                | _ =>
                  match pPushError p3 "Invalid assignment target" with
                  | none => (.panic, p3)
                  | some (e, p4) => (.err e, p4))
         | some (false, p2) => (.ok (.ex left_side_identifier), p2))
    | .logic_or =>
      pBindEx (pgo n p .logic_and) fun left_expr p1 =>
        (match pMatchNext p1 [.Or] with
         | none => (.panic, p1)
         | some (true, p2) =>
           (match pPrevious p2 with
            | none => (.panic, p2)
            | some logical_or =>
              pBindEx (pgo n p2 .logic_and) fun right_expr p3 =>
                (.ok (.ex (.Logical left_expr logical_or right_expr)), p3))
         | some (false, p2) => (.ok (.ex left_expr), p2))
    | .logic_and =>
      pBindEx (pgo n p .equality) fun left_expr p1 =>
        (match pMatchNext p1 [.And] with
         | none => (.panic, p1)
         | some (true, p2) =>
           (match pPrevious p2 with
            | none => (.panic, p2)
            | some logical_and =>
              pBindEx (pgo n p2 .equality) fun right_expr p3 =>
                (.ok (.ex (.Logical left_expr logical_and right_expr)), p3))
         | some (false, p2) => (.ok (.ex left_expr), p2))
    | .equality =>
      pBindEx (pgo n p .comparison) fun e p1 => pgo n p1 (.equalityLoop e)
    | .equalityLoop expr =>
      (match pMatchNext p [.BangEqual, .EqualEqual] with
       | none => (.panic, p)
       | some (true, p1) =>
         (match pPrevious p1 with
          | none => (.panic, p1)
          | some op =>
            pBindEx (pgo n p1 .comparison) fun right p2 =>
              pgo n p2 (.equalityLoop (.Binary expr op right)))
       | some (false, p1) => (.ok (.ex expr), p1))
    | .comparison =>
      pBindEx (pgo n p .term) fun e p1 => pgo n p1 (.comparisonLoop e)
    | .comparisonLoop expr =>
      (match pMatchNext p [.Greater, .GreaterEqual, .Less, .LessEqual] with
       | none => (.panic, p)
       | some (true, p1) =>
         (match pPrevious p1 with
          | none => (.panic, p1)
          | some op =>
            pBindEx (pgo n p1 .term) fun right p2 =>
              pgo n p2 (.comparisonLoop (.Binary expr op right)))
       | some (false, p1) => (.ok (.ex expr), p1))
    | .term =>
      -- a single `if`: at most ONE `-`/`+` is consumed (no repetition)
      pBindEx (pgo n p .factor) fun expr p1 =>
        (match pMatchNext p1 [.Minus, .Plus] with
         | none => (.panic, p1)
         | some (true, p2) =>
           (match pPrevious p2 with
            | none => (.panic, p2)
            | some op =>
              pBindEx (pgo n p2 .factor) fun right p3 =>
                (.ok (.ex (.Binary expr op right)), p3))
         | some (false, p2) => (.ok (.ex expr), p2))
    | .factor =>
      -- a single `if`: at most ONE `/`/`*` is consumed (no repetition)
      pBindEx (pgo n p .unary) fun expr p1 =>
        (match pMatchNext p1 [.Slash, .Star] with
         | none => (.panic, p1)
         | some (true, p2) =>
           (match pPrevious p2 with
            | none => (.panic, p2)
            | some op =>
              pBindEx (pgo n p2 .unary) fun right p3 =>
                (.ok (.ex (.Binary expr op right)), p3))
         | some (false, p2) => (.ok (.ex expr), p2))
    | .unary =>
      (match pMatchNext p [.Bang, .Minus] with
       | none => (.panic, p)
       | some (true, p1) =>
         (match pPrevious p1 with
          | none => (.panic, p1)
          | some op =>
            pBindEx (pgo n p1 .unary) fun right p2 =>
              (.ok (.ex (.Unary op right)), p2))
       | some (false, p1) => pgo n p1 .call)
    | .call =>
      pBindEx (pgo n p .primary) fun expression p1 => pgo n p1 (.callLoop expression)
    | .callLoop expression =>
      (match pMatchNext p [.LeftParen] with
       | none => (.panic, p)
       | some (true, p1) =>
         pBindEx (pgo n p1 (.finish_call expression)) fun e p2 => pgo n p2 (.callLoop e)
       | some (false, p1) => (.ok (.ex expression), p1))
    | .finish_call callee =>
      (match pCheck p .RightParen with
       | none => (.panic, p)
       | some true =>
         pBindConsume (pConsume p .RightParen "Expected `)` after arguments") p
           fun closing_paren p1 => (.ok (.ex (.Call callee closing_paren [])), p1)
       | some false => pgo n p (.argsLoop callee []))
    | .argsLoop callee arguments =>
      let pushStep : Option PState :=
        if 255 ≤ arguments.length then
          (pPushError p "Too many arguments. (A function can have at max 255 arguments)").map (·.2)
        else some p
      (match pushStep with
       | none => (.panic, p)
       | some p1 =>
         pBindEx (pgo n p1 .expression) fun arg p2 =>
           match pMatchNext p2 [.Comma] with
           | none => (.panic, p2)
           | some (true, p3) => pgo n p3 (.argsLoop callee (arguments ++ [arg]))
           | some (false, p3) =>
             pBindConsume (pConsume p3 .RightParen "Expected `)` after arguments") p3
               fun closing_paren p4 =>
                 (.ok (.ex (.Call callee closing_paren (arguments ++ [arg]))), p4))
    | .primary =>
      (match pMatchNext p [.Nil, .True, .False, .String, .Number] with
       | none => (.panic, p)
       | some (true, p1) =>
         (match pPrevious p1 with
          | none => (.panic, p1)
          | some t => (.ok (.ex (.Literal t)), p1))
       | some (false, p1) =>
         match pMatchNext p1 [.Identifier] with
         | none => (.panic, p1)
         | some (true, p2) =>
           (match pPrevious p2 with
            | none => (.panic, p2)
            | some t => (.ok (.ex (.Variable t)), p2))
         | some (false, p2) =>
           match pMatchNext p2 [.LeftParen] with
           | none => (.panic, p2)
           | some (true, p3) =>
             pBindEx (pgo n p3 .expression) fun e p4 =>
               -- `consume(RightParen, ...).unwrap()`: an Err here is a panic
               (match pConsume p4 .RightParen "Expect \x27)\x27 after expresion." with
                | none => (.panic, p4)
                | some (.ok _, p5) => (.ok (.ex (.Grouping e)), p5)
                | some (_, p5) => (.panic, p5))
           | some (false, p3) =>
             match pPushError p3 "Unexpected Token" with
             | none => (.panic, p3)
             | some (e, p4) => (.err e, p4))

/-- parser.rs `Parser::parse`: parse declarations until EOF, recording
errors and synchronizing after each failed declaration. -/
def parse (fuel : Nat) (p : PState) : Res Unit × PState :=
  match pgo fuel p .parseLoop with
  | (.ok _, p1) => (.ok (), p1)
  | (.err e, p1) => (.err e, p1)
  | (.panic, p1) => (.panic, p1)
  | (.oof, p1) => (.oof, p1)

/-! ## Concrete fixtures used by the theorems -/

def tokId (s : String) : Token := ⟨.Identifier, s, none, 1⟩

def tokNum (n : F32) : Token := ⟨.Number, "", some (.NumberType n), 1⟩

def tokStrLit (s : String) : Token := ⟨.String, "", some (.StringType s), 1⟩

def tokRParen : Token := ⟨.RightParen, ")", none, 1⟩

def tokReturn : Token := ⟨.Return, "return", none, 1⟩

def tokPlus : Token := ⟨.Plus, "+", none, 1⟩

def tokStar : Token := ⟨.Star, "*", none, 1⟩

def tokOr : Token := ⟨.Or, "or", none, 1⟩

def tokAnd : Token := ⟨.And, "and", none, 1⟩

def tokEqEq : Token := ⟨.EqualEqual, "==", none, 1⟩

def tokLess : Token := ⟨.Less, "<", none, 1⟩

def tokBang : Token := ⟨.Bang, "!", none, 1⟩

def tokNilLit : Token := ⟨.Nil, "nil", none, 1⟩

def tokSemi : Token := ⟨.SemiColon, ";", none, 1⟩

def tokEOF : Token := ⟨.EOF, "", none, 1⟩

def litNum (n : F32) : Expr := .Literal (tokNum n)

def litStr (s : String) : Expr := .Literal (tokStrLit s)

/-- A fresh interpreter as built by main.rs: `Interpreter::new(None)`. -/
def freshInterp : InterpState := interpreterNew none 0

/-- `{ fun f3() {} }` — a function declaration inside a block. -/
def c1Prog : Stmt := .Block [.Function (tokId "f3") [] []]

/-- `fun f() { { return 1; } return 2; } var r = f();`. -/
def c2ProgBlock : List Stmt :=
  [.Function (tokId "f") [] [.Block [.ret tokReturn (litNum 1)], .ret tokReturn (litNum 2)],
   .Var (tokId "r") (some (.Call (.Variable (tokId "f")) tokRParen []))]

/-- `fun g() { var i = 0; while (i < 2) { i = i + 1; return 7; } return 9; }
var s = g();`. -/
def c2ProgWhile : List Stmt :=
  [.Function (tokId "g") []
     [.Var (tokId "i") (some (litNum 0)),
      .WhileLoop (.Binary (.Variable (tokId "i")) tokLess (litNum 2))
        (.Block
          [.Expression (.Assign (tokId "i") (.Binary (.Variable (tokId "i")) tokPlus (litNum 1))),
           .ret tokReturn (litNum 7)]),
      .ret tokReturn (litNum 9)],
   .Var (tokId "s") (some (.Call (.Variable (tokId "g")) tokRParen []))]

/-- `fun f2() { return 1; } f2();`. -/
def c3Prog : List Stmt :=
  [.Function (tokId "f2") [] [.ret tokReturn (litNum 1)],
   .Expression (.Call (.Variable (tokId "f2")) tokRParen [])]

/-- `class Foo < Foo {}` — the superclass expression names the class itself. -/
def c5ProgCounter : Stmt := .classDecl (tokId "Foo") (some (.Variable (tokId "Foo"))) []

/-- `class A { m() {} }` — a class with one method and no superclass. -/
def c5ClassWithMethod : Stmt := .classDecl (tokId "A") none [.Function (tokId "m") [] []]

/-- `class A2 {} var a = A2(); a.x = 1; var chk = a.x;`. -/
def c6Prog : List Stmt :=
  [.classDecl (tokId "A2") none [],
   .Var (tokId "a") (some (.Call (.Variable (tokId "A2")) tokRParen [])),
   .Expression (.Set (.Variable (tokId "a")) (tokId "x") (litNum 1)),
   .Var (tokId "chk") (some (.Get (.Variable (tokId "a")) (tokId "x")))]

/-- `clock()`. -/
def c8CallClock : Expr := .Call (.Variable (tokId "clock")) tokRParen []

/-- Token stream of `a OP b OP c ;` for a binary operator token `op`. -/
def c9Toks (a b c : F32) (op : Token) : List Token :=
  [tokNum a, op, tokNum b, op, tokNum c, tokSemi, tokEOF]

/-- A one-environment interpreter whose active environment binds "x" to the
given value. -/
def c10State (v : Ty) : InterpState :=
  { store := [⟨none, [("x", v)]⟩], globals := 0, environment := 0,
    output := [], clock := 0 }

/-- The `+` rule as the spec states it (§4.5): Number+Number adds; if
exactly one operand is a Number the result is an InterpretError (the
source's messages: coercing the right operand when the left is a Number,
"Expected String" when only the right is); otherwise the concatenation of
the two operands' String-conversions.  This definition follows the SPEC's
words; the theorem `c4_plus_semantics` compares the source's
`visit_binary` dispatch against it. -/
def plusSpec (lv rv : Ty) (line : Nat) (st2 : InterpState) : Res Ty × InterpState :=
  match lv, rv with
  | .Number a, .Number b => (.ok (.Number (F32.add a b)), st2)
  | .Number _, _ =>
    (.err (.InterpretError ("Expected Number, got " ++ rv.display) line), st2)
  | _, .Number _ =>
    (.err (.InterpretError ("Expected String, got " ++ rv.display) line), st2)
  | _, _ => (.ok (.String (lv.value ++ rv.value)), st2)

/-! ## Helper lemmas -/

/-- Setting index `i` and reading back index `i`. -/
theorem listGetSet_self : ∀ (l : List α) (i : Nat) (a : α), i < l.length →
    (l.set i a).get? i = some a
  | _ :: _, 0, _, _ => rfl
  | _ :: t, i + 1, a, h => listGetSet_self t i a (Nat.lt_of_succ_lt_succ h)
  | [], _, _, h => absurd h (by simp)

/-- Setting index `i` does not change index `j ≠ i`. -/
theorem listGetSet_ne : ∀ (l : List α) (i j : Nat) (a : α), i ≠ j →
    (l.set i a).get? j = l.get? j
  | [], _, _, _, _ => by simp
  | _ :: _, 0, 0, _, h => absurd rfl h
  | _ :: _, 0, _ + 1, _, _ => rfl
  | _ :: _, _ + 1, 0, _, _ => rfl
  | _ :: t, i + 1, j + 1, a, h =>
    listGetSet_ne t i j a (fun hh => h (by rw [hh]))

/-- Reading a key right after inserting it. -/
theorem hashGet_hashInsert_self (k : String) (v : α) :
    ∀ l : List (String × α), hashGet k (hashInsert k v l) = some v
  | [] => by simp [hashInsert, hashGet]
  | (k', v') :: t => by
    by_cases hk : k' = k
    · simp [hashInsert, hashGet, hk]
    · simp [hashInsert, hashGet, hk, hashGet_hashInsert_self k v t]

/-- Inverting the `evaluate` wrapper on a successful evaluation. -/
theorem evaluate_ok_inv {fuel : Nat} {st st1 : InterpState} {e : Expr} {v : Ty}
    (h : evaluate fuel st e = (.ok v, st1)) :
    igo fuel st (.ev e) = (.ok (.tv v), st1) := by
  unfold evaluate at h
  rcases hi : igo fuel st (.ev e) with ⟨r, s⟩
  rw [hi] at h
  cases r with
  | ok o =>
    cases o with
    | tv w =>
      injection h with h1 h2
      injection h1 with h3
      rw [h2, h3]
    | sig _ => injection h with h1 _; injection h1
    | tvs _ => injection h with h1 _; injection h1
  | err _ => injection h with h1 _; injection h1
  | panic => injection h with h1 _; injection h1
  | oof => injection h with h1 _; injection h1

/-- Inverting the `evaluate` wrapper on a failed evaluation. -/
theorem evaluate_err_inv {fuel : Nat} {st st1 : InterpState} {e : Expr} {er : Error}
    (h : evaluate fuel st e = (.err er, st1)) :
    igo fuel st (.ev e) = (.err er, st1) := by
  unfold evaluate at h
  rcases hi : igo fuel st (.ev e) with ⟨r, s⟩
  rw [hi] at h
  cases r with
  | ok o =>
    cases o with
    | tv w => injection h with h1 _; injection h1
    | sig _ => injection h with h1 _; injection h1
    | tvs _ => injection h with h1 _; injection h1
  | err e0 =>
    injection h with h1 h2
    injection h1 with h3
    rw [h2, h3]
  | panic => injection h with h1 _; injection h1
  | oof => injection h with h1 _; injection h1

/-- One-step unfolding of a function declaration statement: `visit_function`
builds the Function value closing over the ACTIVE environment and defines
it into the GLOBALS environment (interpreter.rs lines 605-628). -/
theorem execute_function_eq (fuel : Nat) (st : InterpState) (name : Token)
    (ps : List Token) (body : List Stmt) :
    execute (fuel + 1) st (.Function name ps body) =
      (.ok none,
       defineIn st st.globals name.lexeme
         (.Function (.mk name ps.length (.Function name ps body) st.environment))) := rfl

/-- `defineIn` never moves the active environment. -/
theorem defineIn_environment (st : InterpState) (i : Nat) (k : String) (v : Ty) :
    (defineIn st i k v).environment = st.environment := by
  unfold defineIn
  rcases st.store.get? i with _ | env <;> rfl

/-- Own-map read-back after `defineIn` at a valid index. -/
theorem lookupStr_defineIn_self (st : InterpState) (i : Nat) (k : String) (v : Ty)
    (h : i < st.store.length) :
    lookupStr (defineIn st i k v) i k = some v := by
  rcases henv : st.store.get? i with _ | env
  · exact absurd (List.get?_eq_get h) (by rw [henv]; exact fun hh => by cases hh)
  · unfold defineIn lookupStr
    rw [henv]
    simp only
    rw [listGetSet_self _ _ _ (by simpa using h)]
    exact hashGet_hashInsert_self k v env.values

/-- `defineIn` at index `i` leaves every other store entry unchanged. -/
theorem defineIn_store_ne (st : InterpState) (i j : Nat) (k : String) (v : Ty)
    (h : i ≠ j) :
    (defineIn st i k v).store.get? j = st.store.get? j := by
  unfold defineIn
  rcases henv : st.store.get? i with _ | env
  · rfl
  · simp only
    exact listGetSet_ne _ _ _ _ h

/-! ## The claims -/

/-- C1, counterexample.  Executing `{ fun f3() {} }` from a fresh
interpreter: during the declaration the innermost (active) scope is the
block environment, store index 2, freshly allocated by `visit_block`; the
claim says the Function value is bound there and not into the global
environment.  In fact after the run the block environment does not contain
"f3" at all, while the GLOBAL environment (index 0) does —
`visit_function` borrows `self.globals` for the `define`
(interpreter.rs line 624). -/
theorem c1_claim_counterexample :
    lookupStr (execute 10 freshInterp c1Prog).2 2 "f3" = none ∧
    (lookupStr (execute 10 freshInterp c1Prog).2 0 "f3").isSome = true :=
  ⟨rfl, rfl⟩

/-- C1, amended.  For every function declaration statement executed by the
Interpreter, the resulting Function value — whose closure IS the
environment active at declaration time — is bound under the function's
name into the GLOBAL environment (not the innermost scope); the active
environment and every other store entry are unchanged. -/
theorem c1_amended_function_binds_into_globals
    (fuel : Nat) (st : InterpState) (name : Token) (ps : List Token)
    (body : List Stmt) (h : st.globals < st.store.length) :
    (execute (fuel + 1) st (.Function name ps body)).1 = .ok none ∧
    lookupStr (execute (fuel + 1) st (.Function name ps body)).2 st.globals name.lexeme =
      some (.Function (.mk name ps.length (.Function name ps body) st.environment)) ∧
    (execute (fuel + 1) st (.Function name ps body)).2.environment = st.environment ∧
    ∀ i, i ≠ st.globals →
      (execute (fuel + 1) st (.Function name ps body)).2.store.get? i = st.store.get? i := by
  rw [execute_function_eq]
  refine ⟨rfl, ?_, ?_, ?_⟩
  · exact lookupStr_defineIn_self st st.globals name.lexeme _ h
  · exact defineIn_environment st st.globals name.lexeme _
  · intro i hi
    exact defineIn_store_ne st st.globals i name.lexeme _ (fun hh => hi hh.symm)

/-- C1, witness for the amended theorem at a concrete input: declaring
`fun w() {}` at the top level of a fresh interpreter binds "w" in the
global environment (index 0) with closure = the active environment
(index 1). -/
theorem c1_amended_witness :
    lookupStr (execute 5 freshInterp (.Function (tokId "w") [] [])).2 0 "w" =
      some (.Function (.mk (tokId "w") 0 (.Function (tokId "w") [] []) 1)) :=
  (c1_amended_function_binds_into_globals 4 freshInterp (tokId "w") [] []
    (by decide)).2.1

/-- C2 (code bug).  A return-value signal does NOT propagate through
enclosing Block statements or While bodies: `visit_block` discards the
`Ok(Some _)` of `execute_block` (interpreter.rs lines 453-457) and
`visit_whileloop` discards the result of `execute` (lines 589-603).
Concretely: `fun f() { { return 1; } return 2; }` returns 2 (the claim
makes it 1), and `fun g() { var i = 0; while (i < 2) { i = i + 1;
return 7; } return 9; }` runs the loop to completion and returns 9 (the
claim makes it 7).  The results are read back through the final active
environment because the return path also leaks the environment (see C3). -/
theorem c2_return_signal_dropped_eval :
    ((interpret 100 freshInterp c2ProgBlock).1 = .ok none ∧
      lookupStr (interpret 100 freshInterp c2ProgBlock).2
        (interpret 100 freshInterp c2ProgBlock).2.environment "r" = some (.Number 2)) ∧
    ((interpret 200 freshInterp c2ProgWhile).1 = .ok none ∧
      lookupStr (interpret 200 freshInterp c2ProgWhile).2
        (interpret 200 freshInterp c2ProgWhile).2.environment "s" = some (.Number 9)) :=
  ⟨⟨rfl, rfl⟩, rfl, rfl⟩

/-- C3 (code bug).  `execute_block` restores the previously active
environment on normal completion and on error, but NOT on the early
return-signal exit (interpreter.rs lines 142-146 return `Ok(Some _)`
without `self.environment = temp`).  After `fun f2() { return 1; } f2();`
the interpreter's active environment is the function-call environment
(store index 2), not the environment it held before the call (index 1). -/
theorem c3_environment_not_restored_eval :
    (interpret 100 freshInterp c3Prog).1 = .ok none ∧
    freshInterp.environment = 1 ∧
    (interpret 100 freshInterp c3Prog).2.environment = 2 :=
  ⟨rfl, rfl, rfl⟩

/-- C6 (code bug).  `visit_set` evaluates the object expression to a
BY-VALUE COPY of the Instance (`Type::Instance` is `Box`ed, not shared —
types.rs line 252), applies `Instance::set` to that copy and drops it, so
the field write is lost.  Running `class A2 {} var a = A2(); a.x = 1;
var chk = a.x;` therefore fails at the Get with "Property does not exist"
instead of yielding the value just written. -/
theorem c6_set_write_lost_eval :
    (interpret 100 freshInterp c6Prog).1 =
      .err (.InterpretError "Property does not exist" 1) :=
  rfl

/-- C7 (code bug).  Scanning a source whose final string literal is
unterminated: on `"abc` the scan PANICS — the unconditional
"consume the closing quote" `advance()` (lexer.rs line 190) indexes past
the end of the source (lines 274-277) — so scanning does NOT complete and
no EOF token is produced (the panic state holds the recorded error and an
empty token list); and on `"a‹newline›b` the recorded LexError carries
line 2, the line where the input ENDS, not line 1 where the string
started, because `self.line` was already incremented by the embedded
newline when the error is pushed (lines 176-186). -/
theorem c7_unterminated_string_eval :
    scan (lexerNew ['"', 'a', 'b', 'c']) =
      .panic ⟨['"', 'a', 'b', 'c'], [], 0, 4, 1, [.LexError "Unterminated String" 1]⟩ ∧
    scan (lexerNew ['"', 'a', '\n', 'b']) =
      .panic ⟨['"', 'a', '\n', 'b'], [], 0, 4, 2, [.LexError "Unterminated String" 2]⟩ :=
  ⟨rfl, rfl⟩

/-- C8, counterexample.  With the host clock reading 42 ms, the claim
makes `clock()` evaluate to Number 42; instead `NativeFunction::call`
returns `Type::Nil` unconditionally (types.rs lines 130-138, "Native
Functions will reutrn nothing for now") — the milliseconds are printed,
not returned. -/
theorem c8_claim_counterexample :
    (evaluate 10 (interpreterNew none 42) c8CallClock).1 = .ok .Nil ∧
    (evaluate 10 (interpreterNew none 42) c8CallClock).1 ≠ .ok (.Number 42) := by
  refine ⟨rfl, fun h => ?_⟩
  rw [show (evaluate 10 (interpreterNew none 42) c8CallClock).1 = Res.ok Ty.Nil from rfl] at h
  injection h with h1
  cases h1

/-- C8, amended.  `Interpreter::new` seeds EXACTLY ONE native binding — a
zero-argument native function named "clock" — and for every host clock
reading, a call of `clock` through the Call expression path PRINTS the
milliseconds to the output sink and returns Nil. -/
theorem c8_amended_clock_prints_and_returns_nil (ms : Nat) :
    (interpreterNew none ms).store.get? 0 =
      some ⟨none, [("clock", .NativeFunction ⟨"clock", 0, .clock⟩)]⟩ ∧
    evaluate 10 (interpreterNew none ms) c8CallClock =
      (.ok .Nil, { interpreterNew none ms with output := [toString ms] }) :=
  ⟨rfl, rfl⟩

/-- C4.  The `+` dispatch of `visit_binary`, given the two operand values:
Number+Number adds; exactly one Number is an InterpretError (Number on the
left: "Expected Number, got …" from coercing the right; Number on the
right only: "Expected String, got …"); otherwise both operands are
String-converted (`Type::value`) and concatenated.  In particular `1 + 2`
evaluates to Number 3, `"a" + "b"` to String "ab", and `1 + "a"` to an
InterpretError (see the witness). -/
theorem c4_plus_semantics
    (fuel : Nat) (st st1 st2 : InterpState) (l r : Expr) (lv rv : Ty) (op : Token)
    (hop : op.token_type = .Plus)
    (hl : evaluate fuel st l = (.ok lv, st1))
    (hr : evaluate fuel st1 r = (.ok rv, st2)) :
    evaluate (fuel + 1) st (.Binary l op r) = plusSpec lv rv op.line st2 := by
  have hl' := evaluate_ok_inv hl
  have hr' := evaluate_ok_inv hr
  clear hl hr
  unfold evaluate
  rw [show igo (fuel + 1) st (.ev (.Binary l op r)) =
      bindTv (igo fuel st (.ev l)) (fun left_value s1 =>
        bindTv (igo fuel s1 (.ev r)) (fun right_value s2 =>
          match binaryOp op left_value right_value with
          | .ok v => (.ok (.tv v), s2)
          | .err er => (.err er, s2)
          | .panic => (.panic, s2)
          | .oof => (.oof, s2))) from rfl]
  rw [hl']
  simp only [bindTv]
  rw [hr']
  simp only [bindTv]
  rcases lv with s | a | b | f | nf | c | i <;>
    rcases rv with s2 | a2 | b2 | f2 | nf2 | c2 | i2 <;>
      simp [binaryOp, hop, get_number_or_return_error, Ty.display, Ty.value, plusSpec]

/-- C4, witness: the three concrete examples of the claim, obtained by
applying `c4_plus_semantics` with its hypotheses discharged by
evaluation. -/
theorem c4_plus_semantics_witness :
    evaluate 2 freshInterp (.Binary (litNum 1) tokPlus (litNum 2)) =
      (.ok (.Number 3), freshInterp) ∧
    evaluate 2 freshInterp (.Binary (litStr "a") tokPlus (litStr "b")) =
      (.ok (.String "ab"), freshInterp) ∧
    evaluate 2 freshInterp (.Binary (litNum 1) tokPlus (litStr "a")) =
      (.err (.InterpretError "Expected Number, got a" 1), freshInterp) := by
  have h1 := c4_plus_semantics 1 freshInterp freshInterp freshInterp (litNum 1) (litNum 2)
    (.Number 1) (.Number 2) tokPlus rfl rfl rfl
  have h2 := c4_plus_semantics 1 freshInterp freshInterp freshInterp (litStr "a") (litStr "b")
    (.String "a") (.String "b") tokPlus rfl rfl rfl
  have h3 := c4_plus_semantics 1 freshInterp freshInterp freshInterp (litNum 1) (litStr "a")
    (.Number 1) (.String "a") tokPlus rfl rfl rfl
  exact ⟨h1.trans rfl, h2.trans rfl, h3.trans rfl⟩

/-- C5, counterexample.  Executing `class Foo < Foo {}` in a fresh
interpreter (where Foo is unbound): were the class name pre-bound to Nil
BEFORE the superclass expression is evaluated — as the claim states — the
superclass lookup of Foo would find Nil and the failure would be
"Superclass must be a class" with `Foo ↦ Nil` left bound.  Instead the
code evaluates the superclass FIRST (interpreter.rs lines 465-485 precede
the `define` at 486-489): the run fails with the undefined-variable
lookup error and leaves Foo unbound in the active environment. -/
theorem c5_claim_counterexample :
    (execute 10 freshInterp c5ProgCounter).1 =
      .err (.InterpretError "Undefined variable \x27Foo\x27." 1) ∧
    lookupStr (execute 10 freshInterp c5ProgCounter).2 1 "Foo" = none :=
  ⟨rfl, rfl⟩

/-- C5, amended.  `visit_class` evaluates the superclass expression BEFORE
pre-binding the class name to Nil: (a) an error from that evaluation
propagates and the class name is never bound; (b) a superclass value that
is not a Class Value is the InterpretError "Superclass must be a class",
again with the name never bound; (c) with no superclass the name is
pre-bound to Nil — which is what makes the final `assign` succeed — the
method table is built with the class's declaring environment as every
method's closure (and, per the source, the CLASS name token as each
method's `Function.name`), and the name is then rebound to the
constructed Class Value. -/
theorem c5_amended_superclass_evaluated_before_nil_binding
    (fuel : Nat) (st st1 : InterpState) (name : Token) (superE : Expr)
    (ms : List Stmt) (e : Error) (v : Ty) :
    (evaluate fuel st superE = (.err e, st1) →
      execute (fuel + 1) st (.classDecl name (some superE) ms) = (.err e, st1)) ∧
    (evaluate fuel st superE = (.ok v, st1) → v.isClass = false →
      execute (fuel + 1) st (.classDecl name (some superE) ms) =
        (.err (.InterpretError "Superclass must be a class" name.line), st1)) ∧
    ((execute 10 freshInterp c5ClassWithMethod).1 = .ok none ∧
      lookupStr (execute 10 freshInterp c5ClassWithMethod).2 1 "A" =
        some (.Class (.mk "A" 0 none
          [("m", .mk (tokId "A") 0 (.Function (tokId "m") [] []) 1)]))) := by
  refine ⟨fun h => ?_, fun h hc => ?_, rfl, rfl⟩
  · have h' := evaluate_err_inv h
    unfold execute
    simp only [igo]
    rw [h']
    simp only [bindTv]
  · have h' := evaluate_ok_inv h
    unfold execute
    simp only [igo]
    rw [h']
    simp only [bindTv]
    rcases v with s | a | b | f | nf | c | i
    all_goals first
      | rfl
      | exact absurd hc (by simp [Ty.isClass])

/-- C5, witness for the amended theorem: `class D < 5 {}` (superclass
evaluates to Number 5, not a Class) is rejected with "Superclass must be a
class", and `class E < q {}` with `q` unbound propagates the
undefined-variable error — in both runs the state (hence the binding
environment) is exactly the pre-run state. -/
theorem c5_amended_witness :
    execute 3 freshInterp (.classDecl (tokId "D") (some (litNum 5)) []) =
      (.err (.InterpretError "Superclass must be a class" 1), freshInterp) ∧
    execute 3 freshInterp (.classDecl (tokId "E") (some (.Variable (tokId "q"))) []) =
      (.err (.InterpretError "Undefined variable \x27q\x27." 1), freshInterp) := by
  constructor
  · exact (c5_amended_superclass_evaluated_before_nil_binding 2 freshInterp freshInterp
      (tokId "D") (litNum 5) [] (.LexError "" 0) (.Number 5)).2.1 rfl rfl
  · exact (c5_amended_superclass_evaluated_before_nil_binding 2 freshInterp freshInterp
      (tokId "E") (.Variable (tokId "q")) []
      (.InterpretError "Undefined variable \x27q\x27." 1) .Nil).1 rfl

/-- C9.  In the feature-complete parser, `term`, `factor`, `logic_or` and
`logic_and` consume at most ONE operator occurrence (a single `if` in the
source, no repetition): on the token stream of `a OP b OP c ;` each stops
after `a OP b` with the parser positioned at the second operator (index
3).  `equality` and `comparison` DO repeat (a `while` loop), producing the
left-associated chain `(a OP b) OP c` (position 5).  Consequently the full
parse of the well-formed-looking statement `1 + 2 + 3;` records the
ParseError "Expected `;` at the end" — the second `+` is not consumable —
and produces no statement. -/
theorem c9_parser_non_associative_term (a b c : F32) :
    pgo 50 (parserNew (c9Toks a b c tokPlus)) .term =
      (.ok (.ex (.Binary (.Literal (tokNum a)) tokPlus (.Literal (tokNum b)))),
       { parserNew (c9Toks a b c tokPlus) with current := 3 }) ∧
    pgo 50 (parserNew (c9Toks a b c tokStar)) .factor =
      (.ok (.ex (.Binary (.Literal (tokNum a)) tokStar (.Literal (tokNum b)))),
       { parserNew (c9Toks a b c tokStar) with current := 3 }) ∧
    pgo 50 (parserNew (c9Toks a b c tokOr)) .logic_or =
      (.ok (.ex (.Logical (.Literal (tokNum a)) tokOr (.Literal (tokNum b)))),
       { parserNew (c9Toks a b c tokOr) with current := 3 }) ∧
    pgo 50 (parserNew (c9Toks a b c tokAnd)) .logic_and =
      (.ok (.ex (.Logical (.Literal (tokNum a)) tokAnd (.Literal (tokNum b)))),
       { parserNew (c9Toks a b c tokAnd) with current := 3 }) ∧
    pgo 50 (parserNew (c9Toks a b c tokEqEq)) .equality =
      (.ok (.ex (.Binary (.Binary (.Literal (tokNum a)) tokEqEq (.Literal (tokNum b)))
          tokEqEq (.Literal (tokNum c)))),
       { parserNew (c9Toks a b c tokEqEq) with current := 5 }) ∧
    pgo 50 (parserNew (c9Toks a b c tokLess)) .comparison =
      (.ok (.ex (.Binary (.Binary (.Literal (tokNum a)) tokLess (.Literal (tokNum b)))
          tokLess (.Literal (tokNum c)))),
       { parserNew (c9Toks a b c tokLess) with current := 5 }) ∧
    (parse 100 (parserNew (c9Toks a b c tokPlus))).1 = .ok () ∧
    (parse 100 (parserNew (c9Toks a b c tokPlus))).2.statements = [] ∧
    (parse 100 (parserNew (c9Toks a b c tokPlus))).2.errors =
      [.ParseError "Expected `;` at the end" 1] :=
  ⟨rfl, rfl, rfl, rfl, rfl, rfl, rfl, rfl, rfl⟩

/-- C10.  Truthiness and equality are not total over the runtime value
union: for every Function, NativeFunction, Class or Instance value `v`,
`is_truthly v` and `is_equal v w` (any right operand `w`) hit the
`todo!()` arms — a panic — and consequently evaluating `!x`, the
condition of an `if`, or an `==` whose LEFT operand is `v` (with `x`
bound to `v`) reaches the unimplemented-code panic rather than returning
a Value or an InterpretError; for the four primitive kinds (Nil, Boolean,
Number, String) both operations are defined. -/
theorem c10_truthiness_equality_not_total (v w : Ty) (fuel : Nat) :
    (v.isCallableKind = true →
      is_truthly v = none ∧
      is_equal v w = none ∧
      evaluate (fuel + 2) (c10State v) (.Unary tokBang (.Variable (tokId "x"))) =
        (.panic, c10State v) ∧
      evaluate (fuel + 2) (c10State v)
          (.Binary (.Variable (tokId "x")) tokEqEq (.Literal tokNilLit)) =
        (.panic, c10State v) ∧
      execute (fuel + 2) (c10State v)
          (.IfElse (.Variable (tokId "x")) (.Print (litNum 0)) none) =
        (.panic, c10State v)) ∧
    (v.isCallableKind = false →
      (is_truthly v).isSome = true ∧ (is_equal v w).isSome = true) := by
  constructor
  · intro h
    cases v with
    | Function f => exact ⟨rfl, rfl, rfl, rfl, rfl⟩
    | NativeFunction f => exact ⟨rfl, rfl, rfl, rfl, rfl⟩
    | Class c => exact ⟨rfl, rfl, rfl, rfl, rfl⟩
    | Instance i => exact ⟨rfl, rfl, rfl, rfl, rfl⟩
    | String s => exact absurd h (by simp [Ty.isCallableKind])
    | Number n => exact absurd h (by simp [Ty.isCallableKind])
    | Boolean b => exact absurd h (by simp [Ty.isCallableKind])
    | Nil => exact absurd h (by simp [Ty.isCallableKind])
  · intro h
    cases v with
    | String s => exact ⟨rfl, rfl⟩
    | Number n => exact ⟨rfl, rfl⟩
    | Boolean b => exact ⟨rfl, rfl⟩
    | Nil => exact ⟨rfl, rfl⟩
    | Function f => exact absurd h (by simp [Ty.isCallableKind])
    | NativeFunction f => exact absurd h (by simp [Ty.isCallableKind])
    | Class c => exact absurd h (by simp [Ty.isCallableKind])
    | Instance i => exact absurd h (by simp [Ty.isCallableKind])

/-- C10, witness: the native clock function value panics under truthiness
and under `!x`; Nil has defined truthiness. -/
theorem c10_truthiness_witness :
    is_truthly (.NativeFunction clockNative) = none ∧
    evaluate 2 (c10State (.NativeFunction clockNative))
        (.Unary tokBang (.Variable (tokId "x"))) =
      (.panic, c10State (.NativeFunction clockNative)) ∧
    (is_truthly .Nil).isSome = true := by
  refine ⟨?_, ?_, ?_⟩
  · exact ((c10_truthiness_equality_not_total (.NativeFunction clockNative) .Nil 0).1 rfl).1
  · exact ((c10_truthiness_equality_not_total (.NativeFunction clockNative) .Nil 0).1 rfl).2.2.1
  · exact ((c10_truthiness_equality_not_total .Nil .Nil 0).2 rfl).1

end Lost
